import Mathlib

/-!
# libusbcpp: a shallow embedding of the ownership and view model

The C++ headers wrap a native USB host library.  Native pointers are natural
numbers (`0` is `nullptr`), native status codes are integers, and every call
into the native library is either an oracle of `Native` (its answer) or a
step on `World` (its effect on reference counts and on the call log).
-/

namespace osf

/-! ## Machine integer conversions -/

/-- Conversion of an integer value to the 32-bit `int` type. -/
def to_int (x : Int) : Int := (x + 2 ^ 31) % 2 ^ 32 - 2 ^ 31

/-- Conversion of an integer value to the 32-bit `unsigned int` type. -/
def to_unsigned_int (x : Int) : Int := x % 2 ^ 32

/-- Conversion of an integer value to the 64-bit `std::size_t` type. -/
def to_size_t (x : Int) : Nat := (x % 2 ^ 64).toNat

/-! ## Result plumbing (`error.hpp`, `sum_type.hpp`) -/

/-- Modelled from the spec: `error.hpp` is not among the sources; an error
wraps the native library's integer status code. -/
structure error where
  code : Int
deriving DecidableEq

/-- Modelled from the spec: `sum_type.hpp` is not among the sources; a
two-armed sum carrying either a success payload or an error. -/
inductive sum_type (α β : Type) where
  | value : α → sum_type α β
  | err : β → sum_type α β
deriving DecidableEq

/-- Modelled from the spec: consumption of a `sum_type` by one handler per
arm, as in `result(on_value, on_error)`. -/
def sum_type.visit {α β γ : Type} (s : sum_type α β) (on_value : α → γ) (on_error : β → γ) : γ :=
  match s with
  | .value a => on_value a
  | .err e => on_error e

/-! ## The range-based for statement -/

/-- The statement `for (auto v : r)` over iterators of type `I`: starting at
`begin`, while `it != end` the view `*it` is visited and `it` is incremented.
The views are collected in visiting order; `none` when the fuel runs out
before `it` meets `end`. -/
def range_for {I V : Type} (ne : I → I → Bool) (incr : I → I) (deref : I → V) :
    Nat → I → I → Option (List V)
  | 0, it, e => if ne it e then none else some []
  | fuel + 1, it, e =>
    if ne it e then (range_for ne incr deref fuel (incr it) e).map (fun vs => deref it :: vs)
    else some []

namespace usb

/-! ## Descriptor views (`osf/usb/descriptor.hpp`) -/

/-- Modelled from the spec: the direction bit of the endpoint address byte
(`LIBUSB_ENDPOINT_IN` of the native header, mask `0x80`). -/
def LIBUSB_ENDPOINT_IN : Nat := 0x80

/-- Modelled from the spec: the transfer-type mask of the attributes
bitfield (`LIBUSB_TRANSFER_TYPE_MASK` of the native header). -/
def LIBUSB_TRANSFER_TYPE_MASK : Nat := 0x03

/-- Modelled from the spec: native endpoint record, an attributes bitfield
and an address byte. -/
structure libusb_endpoint_descriptor where
  bEndpointAddress : Nat
  bmAttributes : Nat
deriving DecidableEq

/-- Modelled from the spec: native alternate-setting record, an endpoint
count and the address of its array of endpoint records. -/
structure libusb_interface_descriptor where
  bNumEndpoints : Nat
  endpoint : Nat
deriving DecidableEq

/-- Modelled from the spec: native interface record, an alt-setting count
and the address of its array of alt-setting records. -/
structure libusb_interface where
  altsetting : Nat
  num_altsetting : Nat
deriving DecidableEq

/-- Modelled from the spec: native configuration record, an interface count
and the address of its array of interface records. -/
structure libusb_config_descriptor where
  bNumInterfaces : Nat
  interface : Nat
deriving DecidableEq

/-- The native descriptor tree: what is stored at each record address.
Addresses count records, so `&a[i]` is `a + i`; the count fields of the
records are natural numbers. -/
structure descriptor_memory where
  config : Nat → libusb_config_descriptor
  interfaces : Nat → libusb_interface
  altsettings : Nat → libusb_interface_descriptor
  endpoints : Nat → libusb_endpoint_descriptor

/-- The class `endpoint_address`: one `unsigned char`. -/
structure endpoint_address where
  num : Nat
deriving DecidableEq

/-- The class `config_descriptor`: a pointer to the native tree. -/
structure config_descriptor where
  pcfg : Nat := 0
deriving DecidableEq

/-- The class `endpoint_descriptor`: a view of one endpoint record. -/
structure endpoint_descriptor where
  pdesc : Nat
deriving DecidableEq

/-- The member `endpoint_descriptor::get_ep_address`. -/
def endpoint_descriptor.get_ep_address (m : descriptor_memory) (v : endpoint_descriptor) :
    endpoint_address :=
  ⟨(m.endpoints v.pdesc).bEndpointAddress⟩

/-- The member `endpoint_descriptor::is_in`: the address byte OR-ed with the
direction mask, converted to `bool`. -/
def endpoint_descriptor.is_in (m : descriptor_memory) (v : endpoint_descriptor) : Bool :=
  ((m.endpoints v.pdesc).bEndpointAddress ||| LIBUSB_ENDPOINT_IN) != 0

/-- The member `endpoint_descriptor::is_out`. -/
def endpoint_descriptor.is_out (m : descriptor_memory) (v : endpoint_descriptor) : Bool :=
  !(endpoint_descriptor.is_in m v)

/-- The class `endpoint_descriptor_iterator`. -/
structure endpoint_descriptor_iterator where
  pdesc : Nat
deriving DecidableEq

/-- Pre-increment of `endpoint_descriptor_iterator`. -/
def endpoint_descriptor_iterator.incr (it : endpoint_descriptor_iterator) :
    endpoint_descriptor_iterator :=
  ⟨it.pdesc + 1⟩

/-- Dereference of `endpoint_descriptor_iterator`. -/
def endpoint_descriptor_iterator.deref (it : endpoint_descriptor_iterator) : endpoint_descriptor :=
  ⟨it.pdesc⟩

/-- The comparison `operator!=` of `endpoint_descriptor_iterator`. -/
def endpoint_descriptor_iterator.ne (lhs rhs : endpoint_descriptor_iterator) : Bool :=
  !(decide (lhs.pdesc = rhs.pdesc))

/-- The class `endpoint_descriptor_range`. -/
structure endpoint_descriptor_range where
  _begin : endpoint_descriptor_iterator
  _end : endpoint_descriptor_iterator
deriving DecidableEq

/-- The class `interface_descriptor`: a view of one alt-setting record. -/
structure interface_descriptor where
  pdesc : Nat
deriving DecidableEq

/-- The member `interface_descriptor::get_endpoint_descriptors`. -/
def interface_descriptor.get_endpoint_descriptors (m : descriptor_memory)
    (v : interface_descriptor) : endpoint_descriptor_range :=
  ⟨⟨(m.altsettings v.pdesc).endpoint + 0⟩,
   ⟨(m.altsettings v.pdesc).endpoint + (m.altsettings v.pdesc).bNumEndpoints⟩⟩

/-- The class `interface_descriptor_iterator`. -/
structure interface_descriptor_iterator where
  pdesc : Nat
deriving DecidableEq

/-- Pre-increment of `interface_descriptor_iterator`. -/
def interface_descriptor_iterator.incr (it : interface_descriptor_iterator) :
    interface_descriptor_iterator :=
  ⟨it.pdesc + 1⟩

/-- Dereference of `interface_descriptor_iterator`. -/
def interface_descriptor_iterator.deref (it : interface_descriptor_iterator) :
    interface_descriptor :=
  ⟨it.pdesc⟩

/-- The comparison `operator!=` of `interface_descriptor_iterator`. -/
def interface_descriptor_iterator.ne (lhs rhs : interface_descriptor_iterator) : Bool :=
  !(decide (lhs.pdesc = rhs.pdesc))

/-- The class `interface_descriptor_range`. -/
structure interface_descriptor_range where
  _begin : interface_descriptor_iterator
  _end : interface_descriptor_iterator
deriving DecidableEq

/-- The class `interface`: a view of one interface record. -/
structure interface where
  pdesc : Nat
deriving DecidableEq

/-- The member `interface::get_interface_descriptors`. -/
def interface.get_interface_descriptors (m : descriptor_memory) (v : interface) :
    interface_descriptor_range :=
  ⟨⟨(m.interfaces v.pdesc).altsetting + 0⟩,
   ⟨(m.interfaces v.pdesc).altsetting + (m.interfaces v.pdesc).num_altsetting⟩⟩

/-- The class `interface_iterator`. -/
structure interface_iterator where
  pdesc : Nat
deriving DecidableEq

/-- Pre-increment of `interface_iterator`. -/
def interface_iterator.incr (it : interface_iterator) : interface_iterator :=
  ⟨it.pdesc + 1⟩

/-- Dereference of `interface_iterator`. -/
def interface_iterator.deref (it : interface_iterator) : interface :=
  ⟨it.pdesc⟩

/-- The comparison `operator!=` of `interface_iterator`. -/
def interface_iterator.ne (lhs rhs : interface_iterator) : Bool :=
  !(decide (lhs.pdesc = rhs.pdesc))

/-- The class `interface_range`. -/
structure interface_range where
  _begin : interface_iterator
  _end : interface_iterator
deriving DecidableEq

/-- The member `config_descriptor::get_interfaces`. -/
def config_descriptor.get_interfaces (m : descriptor_memory) (c : config_descriptor) :
    interface_range :=
  ⟨⟨(m.config c.pcfg).interface + 0⟩,
   ⟨(m.config c.pcfg).interface + (m.config c.pcfg).bNumInterfaces⟩⟩

/-- Iteration `for (auto i : r)` over an `interface_range`. -/
def interface_range.visit (fuel : Nat) (r : interface_range) : Option (List interface) :=
  range_for interface_iterator.ne interface_iterator.incr interface_iterator.deref
    fuel r._begin r._end

/-- Iteration `for (auto d : r)` over an `interface_descriptor_range`. -/
def interface_descriptor_range.visit (fuel : Nat) (r : interface_descriptor_range) :
    Option (List interface_descriptor) :=
  range_for interface_descriptor_iterator.ne interface_descriptor_iterator.incr
    interface_descriptor_iterator.deref fuel r._begin r._end

/-- Iteration `for (auto e : r)` over an `endpoint_descriptor_range`. -/
def endpoint_descriptor_range.visit (fuel : Nat) (r : endpoint_descriptor_range) :
    Option (List endpoint_descriptor) :=
  range_for endpoint_descriptor_iterator.ne endpoint_descriptor_iterator.incr
    endpoint_descriptor_iterator.deref fuel r._begin r._end

/-- The class `device_list_iterator`: a pointer into the backing array of a
device list, as the array address and the index of the entry. -/
structure device_list_iterator where
  base : Nat
  index : Nat
deriving DecidableEq

/-- Pre-increment of `device_list_iterator`. -/
def device_list_iterator.incr (it : device_list_iterator) : device_list_iterator :=
  ⟨it.base, it.index + 1⟩

/-- The comparison `operator!=` of `device_list_iterator`. -/
def device_list_iterator.ne (lhs rhs : device_list_iterator) : Bool :=
  !(decide (lhs = rhs))

end usb

namespace libusbcpp

/-! ## The native library -/

/-- Calls into the native library that act on native state, as they are
recorded in the call log of the world. -/
inductive native_call where
  | ref_device (dev : Nat)
  | unref_device (dev : Nat)
  | open_device (dev : Nat)
  | close (handle : Nat)
  | claim_interface (handle : Nat) (interface_number : Int)
  | release_interface (handle : Nat) (interface_number : Int)
  | get_device_list (ctx : Nat)
  | free_device_list (devs : Nat) (unref_devices : Int)
deriving DecidableEq

/-- Modelled from the spec: the fixed-size device descriptor record of the
native header, with the vendor and product fields a filter reads. -/
structure libusb_device_descriptor where
  idVendor : Nat
  idProduct : Nat
deriving DecidableEq

/-- The answers of the native library, one oracle per wrapped call: the
returned status code, paired with the value the call writes through its
output parameter where it has one.

* `libusb_open dev` is the status and the session written to `*dev_handle`;
* `libusb_claim_interface h n` and `libusb_release_interface h n` are the
  status;
* `libusb_bulk_transfer h ep data length timeout` is the status and the
  actual length written to `*transferred`;
* `libusb_get_device_descriptor dev` is the status and the record written;
* `libusb_get_device h` is the device of a session;
* `libusb_get_device_list ctx` is the returned count (negative on error) and
  the array address written to `*list`;
* `device_array a` is the sequence of device pointers the library placed in
  the array at address `a`. -/
structure Native where
  libusb_open : Nat → Int × Nat
  libusb_claim_interface : Nat → Int → Int
  libusb_release_interface : Nat → Int → Int
  libusb_bulk_transfer : Nat → Nat → Int → Int → Int → Int × Int
  libusb_get_device_descriptor : Nat → Int × libusb_device_descriptor
  libusb_get_device : Nat → Nat
  libusb_get_device_list : Nat → Int × Nat
  device_array : Nat → List Nat

/-- The native state the wrappers act on: the reference count of every
native device, the devices the library released because their count
reached zero, and the log of native calls, oldest first. -/
structure World where
  refcnt : Nat → Int
  destroyed : List Nat
  log : List native_call

/-- Appends one call to the log. -/
def World.record (w : World) (c : native_call) : World :=
  { w with log := w.log ++ [c] }

/-- Modelled from the spec: the count of device `p` goes up by one. -/
def World.incr_ref (w : World) (p : Nat) : World :=
  { w with refcnt := fun q => if q = p then w.refcnt p + 1 else w.refcnt q }

/-- Modelled from the spec: the count of device `p` goes down by one, and
the native device is released when the count reaches zero. -/
def World.decr_ref (w : World) (p : Nat) : World :=
  { w with
    refcnt := fun q => if q = p then w.refcnt p - 1 else w.refcnt q
    destroyed := if w.refcnt p - 1 = 0 then w.destroyed ++ [p] else w.destroyed }

/-- Modelled from the spec: the native `libusb_ref_device`; it reads through
its argument, so a null argument is a fault (`none`). -/
def libusb_ref_device (p : Nat) (w : World) : Option World :=
  if p = 0 then none else some ((w.incr_ref p).record (.ref_device p))

/-- Modelled from the spec: the native `libusb_unref_device`; a null
argument is a fault (`none`). -/
def libusb_unref_device (p : Nat) (w : World) : Option World :=
  if p = 0 then none else some ((w.decr_ref p).record (.unref_device p))

/-! ## `device_handle` (`osf/libusbcpp/device.hpp`) -/

/-- The class `device_handle`: the native session pointer and the vector of
claimed interface numbers. -/
structure device_handle where
  dev : Nat := 0
  claimed_interfaces : List Int := []
deriving DecidableEq

/-- The private constructor `device_handle(libusb_device_handle *d)`. -/
def device_handle.ctor (d : Nat) : device_handle :=
  { dev := d }

/-- The move constructor: the new handle and the moved-from `rhs`. -/
def device_handle.move_ctor (rhs : device_handle) : device_handle × device_handle :=
  ({ dev := rhs.dev, claimed_interfaces := rhs.claimed_interfaces },
   { dev := 0, claimed_interfaces := [] })

/-- The destructor `~device_handle`. -/
def device_handle.dtor (h : device_handle) (w : World) : World :=
  if h.dev ≠ 0 then
    (h.claimed_interfaces.foldl (fun (w1 : World) num => w1.record (.release_interface h.dev num))
      w).record (.close h.dev)
  else w

/-- The conversion `explicit operator bool`. -/
def device_handle.to_bool (h : device_handle) : Bool :=
  h.dev != 0

/-- The member `device_handle::claim`: the status code, the handle after
the call and the world after the call. -/
def device_handle.claim (N : Native) (h : device_handle) (interface_number : Int) (w : World) :
    Int × device_handle × World :=
  (N.libusb_claim_interface h.dev interface_number, h,
   w.record (.claim_interface h.dev interface_number))

/-- The member `device_handle::release`. -/
def device_handle.release (N : Native) (h : device_handle) (interface_number : Int) (w : World) :
    Int × device_handle × World :=
  (N.libusb_release_interface h.dev interface_number, h,
   w.record (.release_interface h.dev interface_number))

/-- The member `device_handle::bulk_transfer`: buffer positions are
addresses, the length argument is an `int` and the timeout argument an
`unsigned int`. -/
def device_handle.bulk_transfer (N : Native) (h : device_handle) (ep : usb.endpoint_address)
    (begin_ end_ : Int) (timeout : Int) : sum_type Int error :=
  let r := N.libusb_bulk_transfer h.dev ep.num begin_ (to_int (end_ - begin_))
    (to_unsigned_int timeout)
  if r.1 = 0 then .value (begin_ + r.2) else .err (error.mk r.1)

/-! ## `device` (`osf/libusbcpp/device.hpp`) -/

/-- The class `device`: a counted reference to a native device. -/
structure device where
  pdev : Nat := 0
deriving DecidableEq

/-- The private constructor `device(libusb_device *p)`. -/
def device.ctor (p : Nat) (w : World) : Option (device × World) :=
  (libusb_ref_device p w).map (fun w1 => ({ pdev := p }, w1))

/-- The copy constructor `device(const device &other)`. -/
def device.copy_ctor (other : device) (w : World) : Option (device × World) :=
  (libusb_ref_device other.pdev w).map (fun w1 => ({ pdev := other.pdev }, w1))

/-- The move constructor `device(device &&other)`: the new object and the
moved-from `other`. -/
def device.move_ctor (other : device) : device × device :=
  ({ pdev := other.pdev }, { pdev := 0 })

/-- The destructor `~device`. -/
def device.dtor (d : device) (w : World) : Option World :=
  if d.pdev ≠ 0 then libusb_unref_device d.pdev w else some w

/-- The member `device::open`. -/
def device.open (N : Native) (d : device) (w : World) : sum_type device_handle error × World :=
  let r := N.libusb_open d.pdev
  if r.1 = 0 then (.value (device_handle.ctor r.2), w.record (.open_device d.pdev))
  else (.err (error.mk r.1), w.record (.open_device d.pdev))

/-- The member `device::get_device_descriptor`. -/
def device.get_device_descriptor (N : Native) (d : device) :
    sum_type libusb_device_descriptor error :=
  let r := N.libusb_get_device_descriptor d.pdev
  if r.1 = 0 then .value r.2 else .err (error.mk r.1)

/-- The member `device_handle::get_device`. -/
def device_handle.get_device (N : Native) (h : device_handle) (w : World) :
    Option (device × World) :=
  device.ctor (N.libusb_get_device h.dev) w

/-! ### Device objects with identity

Assignment reads and writes two objects that may be one and the same, so
the device objects of a program live in a store: slot `i` holds the object
with identity `i` while it is live. -/

/-- A program state: the native world and the live `device` objects. -/
structure Sys where
  world : World
  objs : List (Option device)

/-- The live object with identity `i`, if any. -/
def Sys.obj (s : Sys) (i : Nat) : Option device :=
  (s.objs[i]?).join

/-- Writes member `pdev` of object `i`. -/
def Sys.set_pdev (s : Sys) (i : Nat) (p : Nat) : Sys :=
  { s with objs := s.objs.set i (some { pdev := p }) }

/-- A new object constructed from a native pointer, as by dereferencing a
list iterator or by `device_handle::get_device`. -/
def Sys.construct (p : Nat) (s : Sys) : Option Sys :=
  (device.ctor p s.world).map (fun r => { world := r.2, objs := s.objs ++ [some r.1] })

/-- A new object copy-constructed from object `other`. -/
def Sys.copy_construct (other : Nat) (s : Sys) : Option Sys :=
  (s.obj other).bind fun o =>
    (device.copy_ctor o s.world).map (fun r => { world := r.2, objs := s.objs ++ [some r.1] })

/-- A new object move-constructed from object `other`. -/
def Sys.move_construct (other : Nat) (s : Sys) : Option Sys :=
  (s.obj other).map fun o =>
    { s with objs := (s.objs.set other (some (device.move_ctor o).2)) ++ [some (device.move_ctor o).1] }

/-- The copy assignment `device::operator=(const device &other)` on object
`self`. -/
def Sys.copy_assign (self other : Nat) (s : Sys) : Option Sys :=
  (s.obj self).bind fun t =>
    (if t.pdev ≠ 0 then libusb_unref_device t.pdev s.world else some s.world).bind fun w1 =>
      (s.obj other).bind fun o =>
        (libusb_ref_device o.pdev w1).map fun w2 =>
          { world := w2, objs := (s.set_pdev self o.pdev).objs }

/-- The move assignment `device::operator=(device &&other)` on object
`self`. -/
def Sys.move_assign (self other : Nat) (s : Sys) : Option Sys :=
  (s.obj self).bind fun t =>
    (if t.pdev ≠ 0 then libusb_unref_device t.pdev s.world else some s.world).bind fun w1 =>
      (s.obj other).map fun o =>
        { world := w1, objs := ((s.set_pdev self o.pdev).set_pdev other 0).objs }

/-- The destruction of object `i`. -/
def Sys.destroy (i : Nat) (s : Sys) : Option Sys :=
  (s.obj i).bind fun d =>
    (device.dtor d s.world).map fun w1 => { world := w1, objs := s.objs.set i none }

/-- The number of live `device` objects whose pointer is `p`. -/
def Sys.live_refs (s : Sys) (p : Nat) : Nat :=
  s.objs.countP (fun o => decide (o = some { pdev := p }))

/-- The count invariant, relative to the references `held` by live device
lists: the count of every native device is the number of live `device`
objects on it plus the held references. -/
def Sys.counts_ok (held : Nat → Nat) (s : Sys) : Prop :=
  ∀ p, p ≠ 0 → s.world.refcnt p = (s.live_refs p : Int) + (held p : Int)

/-- No native device that a live object or a live list refers to has been
released by the native library. -/
def Sys.none_released (held : Nat → Nat) (s : Sys) : Prop :=
  ∀ p, p ≠ 0 → 0 < s.live_refs p + held p → p ∉ s.world.destroyed

/-! ## `device_list`, `context` and `open_if` (`osf/libusbcpp.hpp`) -/

/-- The class `device_list`: the backing array and its length. -/
structure device_list where
  devs : Nat := 0
  length : Nat := 0
deriving DecidableEq

/-- The private constructor `device_list(libusb_device **d, std::size_t l)`. -/
def device_list.ctor (d : Nat) (l : Nat) : device_list :=
  { devs := d, length := l }

/-- The member `device_list::begin`. -/
def device_list.begin_ (l : device_list) : usb.device_list_iterator :=
  ⟨l.devs, 0⟩

/-- The member `device_list::end`. -/
def device_list.end_ (l : device_list) : usb.device_list_iterator :=
  ⟨l.devs, l.length⟩

/-- Modelled from the spec: the native enumeration gives every device it
places in the array one reference held by the list. -/
def libusb_get_device_list (N : Native) (ctx : Nat) (w : World) : (Int × Nat) × World :=
  let r := N.libusb_get_device_list ctx
  (r, (if 0 ≤ r.1 then (N.device_array r.2).foldl World.incr_ref w else w).record
    (.get_device_list ctx))

/-- Modelled from the spec: the native bulk free of a device array, which
with a non-zero flag drops the reference held for every contained device. -/
def libusb_free_device_list (N : Native) (devs : Nat) (unref_devices : Int) (w : World) : World :=
  (if unref_devices ≠ 0 then (N.device_array devs).foldl World.decr_ref w else w).record
    (.free_device_list devs unref_devices)

/-- The destructor `~device_list`. -/
def device_list.dtor (N : Native) (l : device_list) (w : World) : World :=
  if l.devs ≠ 0 then libusb_free_device_list N l.devs 1 w else w

/-- The dereference `device_list_iterator::operator*`: reads the array entry
and constructs a `device` from it; reading through a null array or past the
entries the native call placed is a fault (`none`). -/
def device_list_iterator_deref (N : Native) (it : usb.device_list_iterator) (w : World) :
    Option (device × World) :=
  if it.base = 0 then none
  else
    match (N.device_array it.base)[it.index]? with
    | none => none
    | some p => device.ctor p w

/-- The class `context`: the native session. -/
structure context where
  ctx : Nat := 0
deriving DecidableEq

/-- The member `context::get_device_list`. -/
def context.get_device_list (N : Native) (c : context) (w : World) : device_list × World :=
  let r := libusb_get_device_list N c.ctx w
  (device_list.ctor r.1.2 (to_size_t r.1.1), r.2)

/-- The body of the loop of `open_if` for one device `dev`: the descriptor
query dispatches to `push_if_descriptor_matches`, which opens the device
and moves the handle to the back of `out`; both error arms are ignored. -/
def open_if_body (N : Native) (pred : libusb_device_descriptor → Bool) (dev : device)
    (out : List device_handle) (w : World) : List device_handle × World :=
  (device.get_device_descriptor N dev).visit
    (fun desc =>
      if pred desc then
        ((device.open N dev w).1).visit
          (fun od =>
            (out ++ [(device_handle.move_ctor od).1],
             device_handle.dtor (device_handle.move_ctor od).2 (device.open N dev w).2))
          (fun _ => (out, (device.open N dev w).2))
      else (out, w))
    (fun _ => (out, w))

/-- The loop `for (auto dev : ctx.get_device_list())` of `open_if`: each
round constructs `dev` from `*it`, runs the body and destroys `dev`. -/
def open_if_loop (N : Native) (pred : libusb_device_descriptor → Bool) :
    Nat → usb.device_list_iterator → usb.device_list_iterator → List device_handle → World →
      Option (List device_handle × World)
  | 0, it, e, out, w => if it.ne e then none else some (out, w)
  | fuel + 1, it, e, out, w =>
    if it.ne e then
      match device_list_iterator_deref N it w with
      | none => none
      | some (dev, w1) =>
        match device.dtor dev (open_if_body N pred dev out w1).2 with
        | none => none
        | some w3 => open_if_loop N pred fuel it.incr e (open_if_body N pred dev out w1).1 w3
    else some (out, w)

/-- The function template `open_if`: the handles and the world after the
temporary device list is destroyed; `none` on a fault or when the fuel
runs out. -/
def open_if (N : Native) (fuel : Nat) (c : context) (pred : libusb_device_descriptor → Bool)
    (w : World) : Option (List device_handle × World) :=
  let l := context.get_device_list N c w
  match open_if_loop N pred fuel l.1.begin_ l.1.end_ [] l.2 with
  | none => none
  | some (out, w1) => some (out, device_list.dtor N l.1 w1)

end libusbcpp

namespace usb

/-! ## `transfer` (`transfer.hpp`) -/

/-- Modelled from the spec: the native transfer request, with the fields of
the native header; `length` is an `int`, `timeout` an `unsigned int`, and
the pointers are addresses. -/
structure libusb_transfer where
  dev_handle : Nat
  flags : Nat
  endpoint : Nat
  type : Nat
  timeout : Int
  status : Int
  length : Int
  actual_length : Int
  callback : Nat
  user_data : Nat
  buffer : Int
  num_iso_packets : Int
deriving DecidableEq

/-- Modelled from the spec: the native `libusb_alloc_transfer`, a request
with every field zero. -/
def libusb_alloc_transfer (iso_packets : Int) : libusb_transfer :=
  { dev_handle := 0, flags := 0, endpoint := 0, type := 0, timeout := 0, status := 0,
    length := 0, actual_length := 0, callback := 0, user_data := 0, buffer := 0,
    num_iso_packets := iso_packets }

/-- Modelled from the spec: the bulk transfer type of the native header. -/
def LIBUSB_TRANSFER_TYPE_BULK : Nat := 2

/-- Modelled from the spec: the native `libusb_fill_bulk_transfer`, which
fills the request with device handle, endpoint, buffer, length, callback
pointer, user-data pointer and timeout. -/
def libusb_fill_bulk_transfer (t : libusb_transfer) (dev_handle : Nat) (endpoint : Nat)
    (buffer : Int) (length : Int) (callback : Nat) (user_data : Nat) (timeout : Int) :
    libusb_transfer :=
  { t with dev_handle := dev_handle, endpoint := endpoint, type := LIBUSB_TRANSFER_TYPE_BULK,
           timeout := to_unsigned_int timeout, buffer := buffer, length := to_int length,
           user_data := user_data, callback := callback }

/-- The class `transfer`: the native request `body` points to and the user
completion callback `cb`, which is empty (`none`) or holds a callable of
type `F`. -/
structure transfer (F : Type) where
  body : libusb_transfer
  cb : Option F

/-- The address of the static member `transfer::callback`. -/
def transfer.callback_address : Nat := 1

/-- The private constructor `transfer(libusb_device_handle *dev,
endpoint_address ep)` of the object at address `this`. -/
def transfer.ctor (F : Type) (this : Nat) (dev : Nat) (ep : endpoint_address) : transfer F :=
  { body := libusb_fill_bulk_transfer (libusb_alloc_transfer 0) dev ep.num 0 0
      transfer.callback_address this 0,
    cb := none }

/-- The member `transfer::set_callback`. -/
def transfer.set_callback {F : Type} (t : transfer F) (f : F) : transfer F :=
  { t with cb := some f }

/-- The member `transfer::set_buffer`. -/
def transfer.set_buffer {F : Type} (t : transfer F) (begin_ end_ : Int) : transfer F :=
  { t with body := { t.body with buffer := begin_, length := to_int (end_ - begin_) } }

/-- The member `transfer::set_timeout`. -/
def transfer.set_timeout {F : Type} (t : transfer F) (ms : Int) : transfer F :=
  { t with body := { t.body with timeout := to_unsigned_int ms } }

end usb

namespace libusbcpp

/-- The member `device_handle::async_bulk_transfer`, returning the transfer
object constructed at address `this`. -/
def device_handle.async_bulk_transfer (F : Type) (this : Nat) (h : device_handle)
    (ep : usb.endpoint_address) : usb.transfer F :=
  usb.transfer.ctor F this h.dev ep

end libusbcpp

namespace libusbcpp

/-! ### Device lists with identity (`osf/libusbcpp.hpp`)

A move reads and writes two `device_list` objects that may be one and the
same, so the lists of a program live in a store, like the devices. -/

/-- A program state: the native world and the live `device_list` objects. -/
structure ListSys where
  world : World
  lists : List (Option device_list)

/-- The live list with identity `i`, if any. -/
def ListSys.obj (s : ListSys) (i : Nat) : Option device_list :=
  (s.lists[i]?).join

/-- Writes member `devs` of the live list `i`. -/
def ListSys.set_devs (i : Nat) (v : Nat) (s : ListSys) : ListSys :=
  match s.obj i with
  | some l => { s with lists := s.lists.set i (some { l with devs := v }) }
  | none => s

/-- Writes member `length` of the live list `i`. -/
def ListSys.set_length (i : Nat) (v : Nat) (s : ListSys) : ListSys :=
  match s.obj i with
  | some l => { s with lists := s.lists.set i (some { l with length := v }) }
  | none => s

/-- The call `std::swap(devs, other.devs)` on the lists `self` and `other`:
the old value of `self` is kept aside, `self` takes the value of `other`,
`other` takes the value kept aside. -/
def ListSys.swap_devs (self other : Nat) (s : ListSys) : Option ListSys :=
  (s.obj self).bind fun t =>
    (s.obj other).map fun o => (s.set_devs self o.devs).set_devs other t.devs

/-- The call `std::swap(length, other.length)` on the lists `self` and
`other`. -/
def ListSys.swap_length (self other : Nat) (s : ListSys) : Option ListSys :=
  (s.obj self).bind fun t =>
    (s.obj other).map fun o => (s.set_length self o.length).set_length other t.length

/-- A new list made by `context::get_device_list`. -/
def ListSys.enumerate (N : Native) (c : context) (s : ListSys) : ListSys :=
  { world := (c.get_device_list N s.world).2,
    lists := s.lists ++ [some (c.get_device_list N s.world).1] }

/-- The move constructor `device_list(device_list &&other)`: the new list
starts from its default member initialisers and swaps both members with
`other`. -/
def ListSys.move_construct (other : Nat) (s : ListSys) : Option ListSys :=
  (ListSys.swap_devs s.lists.length other
      { s with lists := s.lists ++ [some { devs := 0, length := 0 }] }).bind
    (ListSys.swap_length s.lists.length other)

/-- The move assignment `device_list::operator=(device_list &&other)` on
the list `self`: `length = 0; devs = nullptr;` and then the two swaps. -/
def ListSys.move_assign (self other : Nat) (s : ListSys) : Option ListSys :=
  (s.obj self).bind fun _ =>
    (ListSys.swap_devs self other ((s.set_length self 0).set_devs self 0)).bind
      (ListSys.swap_length self other)

/-- The destruction of list `i`. -/
def ListSys.destroy (N : Native) (i : Nat) (s : ListSys) : Option ListSys :=
  (s.obj i).map fun l => { world := l.dtor N s.world, lists := s.lists.set i none }

/-- The number of times the backing array at address `a` was freed in a
call log. -/
def frees_of (a : Nat) (log : List native_call) : Nat :=
  log.countP (fun c => match c with
    | .free_device_list d _ => decide (d = a)
    | _ => false)

end libusbcpp

/-! ## Concrete inputs -/

namespace sample

/-- A descriptor tree: one configuration at address 0 with two interfaces
at addresses 10 and 11, each with one alternate setting at address 20, which
has two endpoints at addresses 30 and 31: the OUT endpoint `0x01` at even
addresses and the IN endpoint `0x81` at odd ones. -/
def tree : usb.descriptor_memory where
  config := fun _ => { bNumInterfaces := 2, interface := 10 }
  interfaces := fun _ => { altsetting := 20, num_altsetting := 1 }
  altsettings := fun _ => { bNumEndpoints := 2, endpoint := 30 }
  endpoints := fun a => { bEndpointAddress := if a % 2 = 0 then 0x01 else 0x81, bmAttributes := 2 }

/-- A descriptor tree whose endpoint address bytes are all `0x00`. -/
def zero_tree : usb.descriptor_memory :=
  { tree with endpoints := fun _ => { bEndpointAddress := 0x00, bmAttributes := 0 } }

/-- A world in which no native call has been made and every count is zero. -/
def fresh_world : libusbcpp.World :=
  { refcnt := fun _ => 0, destroyed := [], log := [] }

/-- A native library with five devices 7 to 11 in the array at address 50:
opening device 8 is denied (status -3), the descriptor query of device 9
fails (status -1), device 10 is of another vendor, every other call
succeeds, the session of device `p` is `p + 100`, and a bulk transfer moves
all the bytes asked for. -/
def native : libusbcpp.Native where
  libusb_open := fun p => if p = 8 then (-3, 0) else (0, p + 100)
  libusb_claim_interface := fun _ _ => 0
  libusb_release_interface := fun _ _ => 0
  libusb_bulk_transfer := fun _ _ _ len _ => (0, len)
  libusb_get_device_descriptor := fun p =>
    if p = 9 then (-1, ⟨0, 0⟩) else if p = 10 then (0, ⟨0x1111, 0x2222⟩)
    else (0, ⟨0x1234, 0x5678⟩)
  libusb_get_device := fun h => h - 100
  libusb_get_device_list := fun _ => (5, 50)
  device_array := fun a => if a = 50 then [7, 8, 9, 10, 11] else []

/-- The vendor and product filter `(0x1234, 0x5678)`. -/
def filter (d : libusbcpp.libusb_device_descriptor) : Bool :=
  d.idVendor == 0x1234 && d.idProduct == 0x5678

/-- The sample native library with a bulk endpoint that accepts three bytes
and reports success. -/
def short_native : libusbcpp.Native :=
  { native with libusb_bulk_transfer := fun _ _ _ _ _ => (0, 3) }

/-- The sample native library with a bulk endpoint that accepts three bytes
and then reports a timeout (status -7). -/
def timeout_native : libusbcpp.Native :=
  { native with libusb_bulk_transfer := fun _ _ _ _ _ => (-7, 3) }

/-- One live `device` object, with identity 0, on native device 7 and
holding its only reference: the count of device 7 is 1. -/
def lone_device : libusbcpp.Sys :=
  { world := { refcnt := fun p => if p = 7 then 1 else 0, destroyed := [], log := [] },
    objs := [some { pdev := 7 }] }

/-- The live object 0 on native device 7 next to the moved-from object 1,
whose pointer is null. -/
def device_and_moved_from : libusbcpp.Sys :=
  { world := { refcnt := fun p => if p = 7 then 1 else 0, destroyed := [], log := [] },
    objs := [some { pdev := 7 }, some { pdev := 0 }] }

/-- The sample native library when the enumeration fails for lack of memory
(status -11): no device pointer is placed, and the array pointer the
wrapper reads back is whatever was there, here the address 50. -/
def failing_native : libusbcpp.Native :=
  { native with libusb_get_device_list := fun _ => (-11, 50), device_array := fun _ => [] }

/-- The sample native library with a second backing array at address 60
that holds the devices 12 and 13. -/
def two_arrays_native : libusbcpp.Native :=
  { native with
    device_array := fun a =>
      if a = 50 then [7, 8, 9, 10, 11] else if a = 60 then [12, 13] else [] }

/-- Two live lists: list 0 owns the array at address 50 with five entries,
list 1 owns the array at address 60 with two entries. -/
def two_lists : libusbcpp.ListSys :=
  { world := fresh_world,
    lists := [some { devs := 50, length := 5 }, some { devs := 60, length := 2 }] }

end sample

/-! ## Scenarios -/

namespace libusbcpp

/-- The scenario of a handle on session `d` that claims `i1`, claims `i2`
and is destroyed: the two statuses and the world afterwards. -/
def claim_two_then_destroy (N : Native) (d : Nat) (i1 i2 : Int) (w : World) : Int × Int × World :=
  let c1 := (device_handle.ctor d).claim N i1 w
  let c2 := c1.2.1.claim N i2 c1.2.2
  (c1.1, c2.1, c2.2.1.dtor c2.2.2)

/-- The number of native release calls for interface `n` of session `d` in
a call log. -/
def releases_of (d : Nat) (n : Int) (log : List native_call) : Nat :=
  log.count (.release_interface d n)

/-- The scenario of a caller that opens device `d` and drops the result at
once: the handle in the success arm is destroyed, the error arm holds
nothing to destroy. -/
def open_then_drop (N : Native) (d : device) (w : World) : World :=
  ((d.open N w).1).visit (fun h => h.dtor (d.open N w).2) (fun _ => (d.open N w).2)

/-- The words of the specification of `open_if` for one enumerated
device `p`: a handle on the session the native open produced when the
descriptor query succeeds, the descriptor satisfies `pred` and the open
succeeds; nothing otherwise. -/
def open_if_expected_one (N : Native) (pred : libusb_device_descriptor → Bool) (p : Nat) :
    Option device_handle :=
  if (N.libusb_get_device_descriptor p).1 = 0
      ∧ pred (N.libusb_get_device_descriptor p).2 = true
      ∧ (N.libusb_open p).1 = 0
  then some { dev := (N.libusb_open p).2, claimed_interfaces := [] }
  else none

/-- The words of the specification of `open_if` for an enumerated device
sequence: in enumeration order, one handle for each device that yields one. -/
def open_if_expected (N : Native) (pred : libusb_device_descriptor → Bool) (devs : List Nat) :
    List device_handle :=
  devs.filterMap (open_if_expected_one N pred)

/-- The scenario of a move assignment `lists[self] = std::move(lists[other])`
followed by the destruction of both lists. -/
def move_assign_then_destroy_both (N : Native) (self other : Nat) (s : ListSys) :
    Option ListSys :=
  ((ListSys.move_assign self other s).bind (ListSys.destroy N self)).bind
    (ListSys.destroy N other)

end libusbcpp

/-! ## Theorems -/

/-- OR-ing the direction mask into a byte never gives zero. -/
theorem or_direction_mask_ne_zero (a : Nat) : (a ||| usb.LIBUSB_ENDPOINT_IN) ≠ 0 := by
  intro h
  have h7 : (a ||| usb.LIBUSB_ENDPOINT_IN).testBit 7 = true := by
    rw [Nat.testBit_or]
    have hm : Nat.testBit usb.LIBUSB_ENDPOINT_IN 7 = true := by decide
    simp [hm]
  rw [h] at h7
  simp at h7

/-- The range-based for statement over iterators that are positions: when
`e` lies `n` increments after `it` and the fuel covers `n`, the loop visits
exactly the `n` positions from `it` on, in order. -/
theorem range_for_positions {I V : Type} (ne : I → I → Bool) (incr : I → I) (deref : I → V)
    (pos : I → Nat) (view : Nat → V)
    (hne : ∀ a b, ne a b = !(decide (pos a = pos b)))
    (hincr : ∀ a, pos (incr a) = pos a + 1)
    (hderef : ∀ a, deref a = view (pos a)) :
    ∀ (fuel n : Nat) (it e : I), pos e = pos it + n → n ≤ fuel →
      range_for ne incr deref fuel it e = some ((List.range' (pos it) n).map view) := by
  intro fuel
  induction fuel with
  | zero =>
    intro n it e hpos hn
    have hn0 : n = 0 := by omega
    subst hn0
    simp [range_for, hne, hpos]
  | succ fuel ih =>
    intro n it e hpos hn
    cases n with
    | zero => simp [range_for, hne, hpos]
    | succ k =>
      have hk : pos e = pos (incr it) + k := by rw [hincr]; omega
      have hrec := ih k (incr it) e hk (by omega)
      have hneq : ¬ pos it = pos e := by omega
      simp [range_for, hne, hneq, hrec, hincr, hderef, List.range'_succ]

/-! ### Descriptor ranges -/

/-- C6: for every descriptor tree, `get_interfaces()` begins at the first
interface record and ends exactly `bNumInterfaces` records later, iterating
it (with fuel covering the count) visits exactly the views of records
`0 .. bNumInterfaces - 1` in order and nothing else, and begin equals end
exactly when the count is zero; the same holds for
`get_interface_descriptors()` with `num_altsetting` and for
`get_endpoint_descriptors()` with `bNumEndpoints`. -/
theorem descriptor_ranges_cover_exactly_the_count (m : usb.descriptor_memory)
    (c : usb.config_descriptor) (i : usb.interface) (d : usb.interface_descriptor) (fuel : Nat)
    (hc : (m.config c.pcfg).bNumInterfaces ≤ fuel)
    (hi : (m.interfaces i.pdesc).num_altsetting ≤ fuel)
    (hd : (m.altsettings d.pdesc).bNumEndpoints ≤ fuel) :
    ((c.get_interfaces m)._begin.pdesc = (m.config c.pcfg).interface
      ∧ (c.get_interfaces m)._end.pdesc
          = (c.get_interfaces m)._begin.pdesc + (m.config c.pcfg).bNumInterfaces
      ∧ (c.get_interfaces m).visit fuel
          = some ((List.range (m.config c.pcfg).bNumInterfaces).map
              (fun k => (⟨(m.config c.pcfg).interface + k⟩ : usb.interface)))
      ∧ ((c.get_interfaces m)._begin = (c.get_interfaces m)._end
          ↔ (m.config c.pcfg).bNumInterfaces = 0))
    ∧ ((i.get_interface_descriptors m)._begin.pdesc = (m.interfaces i.pdesc).altsetting
      ∧ (i.get_interface_descriptors m)._end.pdesc
          = (i.get_interface_descriptors m)._begin.pdesc + (m.interfaces i.pdesc).num_altsetting
      ∧ (i.get_interface_descriptors m).visit fuel
          = some ((List.range (m.interfaces i.pdesc).num_altsetting).map
              (fun k => (⟨(m.interfaces i.pdesc).altsetting + k⟩ : usb.interface_descriptor)))
      ∧ ((i.get_interface_descriptors m)._begin = (i.get_interface_descriptors m)._end
          ↔ (m.interfaces i.pdesc).num_altsetting = 0))
    ∧ ((d.get_endpoint_descriptors m)._begin.pdesc = (m.altsettings d.pdesc).endpoint
      ∧ (d.get_endpoint_descriptors m)._end.pdesc
          = (d.get_endpoint_descriptors m)._begin.pdesc + (m.altsettings d.pdesc).bNumEndpoints
      ∧ (d.get_endpoint_descriptors m).visit fuel
          = some ((List.range (m.altsettings d.pdesc).bNumEndpoints).map
              (fun k => (⟨(m.altsettings d.pdesc).endpoint + k⟩ : usb.endpoint_descriptor)))
      ∧ ((d.get_endpoint_descriptors m)._begin = (d.get_endpoint_descriptors m)._end
          ↔ (m.altsettings d.pdesc).bNumEndpoints = 0)) := by
  refine ⟨⟨rfl, rfl, ?_, ?_⟩, ⟨rfl, rfl, ?_, ?_⟩, ⟨rfl, rfl, ?_, ?_⟩⟩
  · have h := range_for_positions usb.interface_iterator.ne usb.interface_iterator.incr
      usb.interface_iterator.deref (fun a => a.pdesc) (fun a => (⟨a⟩ : usb.interface))
      (fun _ _ => rfl) (fun _ => rfl) (fun _ => rfl) fuel (m.config c.pcfg).bNumInterfaces
      (c.get_interfaces m)._begin (c.get_interfaces m)._end rfl hc
    rw [usb.interface_range.visit, h, List.range'_eq_map_range]
    simp [usb.config_descriptor.get_interfaces, Function.comp_def]
  · simp [usb.config_descriptor.get_interfaces]
  · have h := range_for_positions usb.interface_descriptor_iterator.ne
      usb.interface_descriptor_iterator.incr usb.interface_descriptor_iterator.deref
      (fun a => a.pdesc) (fun a => (⟨a⟩ : usb.interface_descriptor))
      (fun _ _ => rfl) (fun _ => rfl) (fun _ => rfl) fuel (m.interfaces i.pdesc).num_altsetting
      (i.get_interface_descriptors m)._begin (i.get_interface_descriptors m)._end rfl hi
    rw [usb.interface_descriptor_range.visit, h, List.range'_eq_map_range]
    simp [usb.interface.get_interface_descriptors, Function.comp_def]
  · simp [usb.interface.get_interface_descriptors]
  · have h := range_for_positions usb.endpoint_descriptor_iterator.ne
      usb.endpoint_descriptor_iterator.incr usb.endpoint_descriptor_iterator.deref
      (fun a => a.pdesc) (fun a => (⟨a⟩ : usb.endpoint_descriptor))
      (fun _ _ => rfl) (fun _ => rfl) (fun _ => rfl) fuel (m.altsettings d.pdesc).bNumEndpoints
      (d.get_endpoint_descriptors m)._begin (d.get_endpoint_descriptors m)._end rfl hd
    rw [usb.endpoint_descriptor_range.visit, h, List.range'_eq_map_range]
    simp [usb.interface_descriptor.get_endpoint_descriptors, Function.comp_def]
  · simp [usb.interface_descriptor.get_endpoint_descriptors]

/-- C6 at the sample tree: two interfaces at addresses 10 and 11, one
alternate setting at address 20, two endpoints at addresses 30 and 31. -/
theorem descriptor_ranges_cover_exactly_the_count_witness :
    ((usb.config_descriptor.mk 0).get_interfaces sample.tree).visit 4
        = some [⟨10⟩, ⟨11⟩]
      ∧ ((usb.interface.mk 10).get_interface_descriptors sample.tree).visit 4 = some [⟨20⟩]
      ∧ ((usb.interface_descriptor.mk 20).get_endpoint_descriptors sample.tree).visit 4
        = some [⟨30⟩, ⟨31⟩] := by
  have h := descriptor_ranges_cover_exactly_the_count sample.tree ⟨0⟩ ⟨10⟩ ⟨20⟩ 4
    (by decide) (by decide) (by decide)
  exact ⟨h.1.2.2.1, h.2.1.2.2.1, h.2.2.2.2.1⟩

/-! ### Endpoint direction -/

/-- C7: at the OUT endpoint with address byte `0x01`, whose direction bit is
clear, `is_in()` answers true and `is_out()` answers false. -/
theorem is_in_reports_out_endpoint_as_in :
    (sample.tree.endpoints 30).bEndpointAddress = 0x01
      ∧ (0x01 &&& usb.LIBUSB_ENDPOINT_IN) = 0
      ∧ usb.endpoint_descriptor.is_in sample.tree ⟨30⟩ = true
      ∧ usb.endpoint_descriptor.is_out sample.tree ⟨30⟩ = false := by
  decide

/-- C9 fails at the address byte `0x00`: `is_in()` answers true there, not
false. -/
theorem is_in_true_at_zero_address :
    (sample.zero_tree.endpoints 30).bEndpointAddress = 0x00
      ∧ ¬ (usb.endpoint_descriptor.is_in sample.zero_tree ⟨30⟩ = false) := by
  decide

/-- C9 as amended: `is_in()` as written, the address byte OR-ed with the
direction mask `0x80`, answers true for every address byte, the zero byte
included. -/
theorem is_in_always_true (m : usb.descriptor_memory) (v : usb.endpoint_descriptor) :
    usb.endpoint_descriptor.is_in m v = true := by
  simp [usb.endpoint_descriptor.is_in, or_direction_mask_ne_zero]

/-! ### Device handles -/

/-- The member `claim` returns the native status and leaves the handle,
its tracked interface numbers included, as it was. -/
theorem claim_leaves_handle (N : libusbcpp.Native) (h : libusbcpp.device_handle) (n : Int)
    (w : libusbcpp.World) :
    (h.claim N n w).1 = N.libusb_claim_interface h.dev n ∧ (h.claim N n w).2.1 = h :=
  ⟨rfl, rfl⟩

/-- Whatever the native library answers, a handle that claimed two
interfaces makes no native release call when it is destroyed: the log gains
the two claims and the close only. -/
theorem claim_two_then_destroy_log (N : libusbcpp.Native) (d : Nat) (i1 i2 : Int)
    (w : libusbcpp.World) (hd : d ≠ 0) :
    (libusbcpp.claim_two_then_destroy N d i1 i2 w).2.2.log
      = w.log ++ [.claim_interface d i1, .claim_interface d i2, .close d] := by
  simp [libusbcpp.claim_two_then_destroy, libusbcpp.device_handle.claim,
    libusbcpp.device_handle.dtor, libusbcpp.device_handle.ctor, libusbcpp.World.record, hd]

/-- C1: a handle on the non-null session 107 claims interfaces 0 and 1, both
with status 0, and is destroyed: the native log is the two claims followed
by the close, and no release call is made for either interface. -/
theorem dtor_releases_no_claimed_interface :
    (libusbcpp.claim_two_then_destroy sample.native 107 0 1 sample.fresh_world).1 = 0
      ∧ (libusbcpp.claim_two_then_destroy sample.native 107 0 1 sample.fresh_world).2.1 = 0
      ∧ (libusbcpp.claim_two_then_destroy sample.native 107 0 1 sample.fresh_world).2.2.log
          = [.claim_interface 107 0, .claim_interface 107 1, .close 107]
      ∧ libusbcpp.releases_of 107 0
          (libusbcpp.claim_two_then_destroy sample.native 107 0 1 sample.fresh_world).2.2.log = 0
      ∧ libusbcpp.releases_of 107 1
          (libusbcpp.claim_two_then_destroy sample.native 107 0 1 sample.fresh_world).2.2.log = 0 := by
  decide

/-- C2: on the handle of session 107, `claim(0)` returns the success status
0 and the tracked set still does not contain 0. -/
theorem claim_success_records_nothing :
    ((libusbcpp.device_handle.ctor 107).claim sample.native 0 sample.fresh_world).1 = 0
      ∧ 0 ∉ ((libusbcpp.device_handle.ctor 107).claim sample.native 0
          sample.fresh_world).2.1.claimed_interfaces := by
  decide

/-- C3 fails when the native call reports a timeout after accepting three of
eight bytes: fewer bytes than requested were moved, yet the result is the
error arm with status -7 and no position is returned. -/
theorem bulk_transfer_timeout_short_is_error :
    (sample.timeout_native.libusb_bulk_transfer 107 1 0 (to_int (8 - 0))
        (to_unsigned_int 1000)).2 < 8 - 0
      ∧ libusbcpp.device_handle.bulk_transfer sample.timeout_native ⟨107, []⟩ ⟨1⟩ 0 8 1000
          = .err ⟨-7⟩
      ∧ ¬ ∃ p : Int, libusbcpp.device_handle.bulk_transfer sample.timeout_native ⟨107, []⟩ ⟨1⟩
            0 8 1000 = .value p ∧ p < 8 ∧ p - 0 = 3 := by
  have herr : libusbcpp.device_handle.bulk_transfer sample.timeout_native ⟨107, []⟩ ⟨1⟩ 0 8 1000
      = .err ⟨-7⟩ := by decide
  refine ⟨by decide, herr, ?_⟩
  rintro ⟨p, hp, -, -⟩
  rw [herr] at hp
  cases hp

/-- C3 as amended: when the native transfer moves fewer bytes than the
requested `end - begin`, then either the native status is 0 and the result
is the success arm holding `p = begin + actual` with `p` strictly before
`end` and `p - begin` the actual length, or the native status is non-zero
and the result is the error arm carrying that status. -/
theorem bulk_transfer_short (N : libusbcpp.Native) (h : libusbcpp.device_handle)
    (ep : usb.endpoint_address) (begin_ end_ timeout : Int)
    (hshort : (N.libusb_bulk_transfer h.dev ep.num begin_ (to_int (end_ - begin_))
      (to_unsigned_int timeout)).2 < end_ - begin_) :
    ((N.libusb_bulk_transfer h.dev ep.num begin_ (to_int (end_ - begin_))
          (to_unsigned_int timeout)).1 = 0
        ∧ ∃ p : Int, h.bulk_transfer N ep begin_ end_ timeout = .value p ∧ p < end_
          ∧ p - begin_ = (N.libusb_bulk_transfer h.dev ep.num begin_ (to_int (end_ - begin_))
              (to_unsigned_int timeout)).2)
    ∨ ((N.libusb_bulk_transfer h.dev ep.num begin_ (to_int (end_ - begin_))
          (to_unsigned_int timeout)).1 ≠ 0
        ∧ h.bulk_transfer N ep begin_ end_ timeout
          = .err ⟨(N.libusb_bulk_transfer h.dev ep.num begin_ (to_int (end_ - begin_))
              (to_unsigned_int timeout)).1⟩) := by
  by_cases h0 : (N.libusb_bulk_transfer h.dev ep.num begin_ (to_int (end_ - begin_))
      (to_unsigned_int timeout)).1 = 0
  · refine Or.inl ⟨h0, begin_ + (N.libusb_bulk_transfer h.dev ep.num begin_
      (to_int (end_ - begin_)) (to_unsigned_int timeout)).2, ?_, ?_, ?_⟩
    · simp only [libusbcpp.device_handle.bulk_transfer, h0, if_true]
    · omega
    · omega
  · exact Or.inr ⟨h0, by simp only [libusbcpp.device_handle.bulk_transfer, h0, if_false]⟩

/-- C3 as amended, at a transfer of eight bytes of which the native call
accepts three with status 0: the returned position is `0 + 3`. -/
theorem bulk_transfer_short_witness :
    ((sample.short_native.libusb_bulk_transfer 107 1 0 (to_int (8 - 0))
          (to_unsigned_int 1000)).1 = 0
        ∧ ∃ p : Int, libusbcpp.device_handle.bulk_transfer sample.short_native ⟨107, []⟩ ⟨1⟩
            0 8 1000 = .value p ∧ p < 8 ∧ p - 0 = 3)
    ∨ ((sample.short_native.libusb_bulk_transfer 107 1 0 (to_int (8 - 0))
          (to_unsigned_int 1000)).1 ≠ 0
        ∧ libusbcpp.device_handle.bulk_transfer sample.short_native ⟨107, []⟩ ⟨1⟩ 0 8 1000
          = .err ⟨(sample.short_native.libusb_bulk_transfer 107 1 0 (to_int (8 - 0))
              (to_unsigned_int 1000)).1⟩) :=
  bulk_transfer_short sample.short_native ⟨107, []⟩ ⟨1⟩ 0 8 1000 (by decide)

/-- C4: for every device and every status `r`, `open()` returns the error
arm carrying exactly `r` if and only if the native open call returns `r` and
`r` is non-zero; it returns a success arm if and only if the native status
is 0, and then the arm holds the handle constructed on the session the
native call produced; the call itself only records the native open, and a
result that is dropped closes a session only in the success case. -/
theorem open_error_iff_native_status (N : libusbcpp.Native) (d : libusbcpp.device)
    (w : libusbcpp.World) (r : Int) :
    ((d.open N w).1 = .err ⟨r⟩ ↔ ((N.libusb_open d.pdev).1 = r ∧ r ≠ 0))
      ∧ ((∃ h, (d.open N w).1 = .value h) ↔ (N.libusb_open d.pdev).1 = 0)
      ∧ ((d.open N w).1 = .value (libusbcpp.device_handle.ctor (N.libusb_open d.pdev).2)
          ↔ (N.libusb_open d.pdev).1 = 0)
      ∧ (d.open N w).2.log = w.log ++ [.open_device d.pdev]
      ∧ (libusbcpp.open_then_drop N d w).log
          = w.log ++ [.open_device d.pdev]
            ++ (if (N.libusb_open d.pdev).1 = 0 ∧ (N.libusb_open d.pdev).2 ≠ 0
                then [.close (N.libusb_open d.pdev).2] else []) := by
  by_cases h0 : (N.libusb_open d.pdev).1 = 0
  · refine ⟨?_, ?_, ?_, ?_, ?_⟩
    · simp only [libusbcpp.device.open, h0, if_true]
      constructor
      · intro h; cases h
      · rintro ⟨rfl, hr⟩; exact absurd rfl hr
    · simp only [libusbcpp.device.open, h0, if_true]
      exact ⟨fun _ => trivial, fun _ => ⟨_, rfl⟩⟩
    · simp only [libusbcpp.device.open, h0, if_true]
    · simp only [libusbcpp.device.open, h0, if_true, libusbcpp.World.record]
    · by_cases hs : (N.libusb_open d.pdev).2 = 0
      · simp [libusbcpp.open_then_drop, libusbcpp.device.open, h0, sum_type.visit,
          libusbcpp.device_handle.dtor, libusbcpp.device_handle.ctor, libusbcpp.World.record, hs]
      · simp [libusbcpp.open_then_drop, libusbcpp.device.open, h0, sum_type.visit,
          libusbcpp.device_handle.dtor, libusbcpp.device_handle.ctor, libusbcpp.World.record, hs]
  · refine ⟨?_, ?_, ?_, ?_, ?_⟩
    · simp only [libusbcpp.device.open, h0, if_false]
      constructor
      · intro h
        injection h with h1
        injection h1 with h2
        exact ⟨h2, fun hr => h0 (h2.trans hr)⟩
      · rintro ⟨rfl, -⟩; rfl
    · simp only [libusbcpp.device.open, h0, if_false]
      constructor
      · rintro ⟨h, hh⟩; cases hh
      · intro hf; exact absurd hf (by simp)
    · simp only [libusbcpp.device.open, h0, if_false]
      constructor
      · intro hh; cases hh
      · intro hf; exact absurd hf (by simp)
    · simp only [libusbcpp.device.open, h0, if_false, libusbcpp.World.record]
    · simp [libusbcpp.open_then_drop, libusbcpp.device.open, h0, sum_type.visit,
        libusbcpp.World.record]

/-! ### Transfers -/

/-- Conversion to `int` keeps a value that fits in 32 bits. -/
theorem to_int_of_fits (x : Int) (hlo : -2 ^ 31 ≤ x) (hhi : x < 2 ^ 31) : to_int x = x := by
  unfold to_int
  omega

/-- Conversion to `unsigned int` keeps a value that fits in 32 bits. -/
theorem to_unsigned_int_of_fits (x : Int) (hlo : 0 ≤ x) (hhi : x < 2 ^ 32) :
    to_unsigned_int x = x := by
  unfold to_unsigned_int
  omega

/-- C8 fails for a timeout outside the range of the native field: on the
transfer of session 107 and endpoint `0x81`, `set_timeout(-1)` stores
4294967295, and `set_buffer(0, 2^31)` stores the length `-2^31`. -/
theorem set_timeout_wraps :
    (((libusbcpp.device_handle.mk 107 []).async_bulk_transfer Unit 1 ⟨0x81⟩).set_timeout
        (-1)).body.timeout = 4294967295
      ∧ (((libusbcpp.device_handle.mk 107 []).async_bulk_transfer Unit 1 ⟨0x81⟩).set_timeout
        (-1)).body.timeout ≠ -1
      ∧ (((libusbcpp.device_handle.mk 107 []).async_bulk_transfer Unit 1 ⟨0x81⟩).set_buffer
        0 2147483648).body.length = -2147483648
      ∧ (((libusbcpp.device_handle.mk 107 []).async_bulk_transfer Unit 1 ⟨0x81⟩).set_buffer
        0 2147483648).body.length ≠ 2147483648 - 0 := by
  decide

/-- C8 as amended: the transfer returned by `async_bulk_transfer(ep)` is
bound to the session of the handle and to the endpoint byte of `ep`, with a
null buffer, length 0, timeout 0 and an empty user callback; on any
transfer, `set_buffer(begin, end)` changes only `buffer` and `length`,
`set_timeout(t)` only `timeout` and `set_callback(f)` only the stored
callback; the stored length is `end - begin` and the stored timeout is `t`
whenever these fit the native `int` and `unsigned int` fields, and their
conversions to those types in general. -/
theorem async_bulk_transfer_frame (F : Type) (this : Nat) (h : libusbcpp.device_handle)
    (ep : usb.endpoint_address) (t : usb.transfer F) (f : F) (begin_ end_ ms : Int)
    (hlo : -2 ^ 31 ≤ end_ - begin_) (hhi : end_ - begin_ < 2 ^ 31)
    (hms : 0 ≤ ms) (hms32 : ms < 2 ^ 32) :
    ((h.async_bulk_transfer F this ep).body.dev_handle = h.dev
      ∧ (h.async_bulk_transfer F this ep).body.endpoint = ep.num
      ∧ (h.async_bulk_transfer F this ep).body.buffer = 0
      ∧ (h.async_bulk_transfer F this ep).body.length = 0
      ∧ (h.async_bulk_transfer F this ep).body.timeout = 0
      ∧ (h.async_bulk_transfer F this ep).cb = none)
    ∧ (t.set_buffer begin_ end_
        = { body :=
              { dev_handle := t.body.dev_handle, flags := t.body.flags,
                endpoint := t.body.endpoint, type := t.body.type, timeout := t.body.timeout,
                status := t.body.status, length := end_ - begin_,
                actual_length := t.body.actual_length, callback := t.body.callback,
                user_data := t.body.user_data, buffer := begin_,
                num_iso_packets := t.body.num_iso_packets },
            cb := t.cb }
      ∧ t.set_timeout ms
        = { body :=
              { dev_handle := t.body.dev_handle, flags := t.body.flags,
                endpoint := t.body.endpoint, type := t.body.type, timeout := ms,
                status := t.body.status, length := t.body.length,
                actual_length := t.body.actual_length, callback := t.body.callback,
                user_data := t.body.user_data, buffer := t.body.buffer,
                num_iso_packets := t.body.num_iso_packets },
            cb := t.cb }
      ∧ t.set_callback f
        = { body :=
              { dev_handle := t.body.dev_handle, flags := t.body.flags,
                endpoint := t.body.endpoint, type := t.body.type, timeout := t.body.timeout,
                status := t.body.status, length := t.body.length,
                actual_length := t.body.actual_length, callback := t.body.callback,
                user_data := t.body.user_data, buffer := t.body.buffer,
                num_iso_packets := t.body.num_iso_packets },
            cb := some f })
    ∧ (∀ b e x : Int,
        t.set_buffer b e
          = { body :=
                { dev_handle := t.body.dev_handle, flags := t.body.flags,
                  endpoint := t.body.endpoint, type := t.body.type, timeout := t.body.timeout,
                  status := t.body.status, length := to_int (e - b),
                  actual_length := t.body.actual_length, callback := t.body.callback,
                  user_data := t.body.user_data, buffer := b,
                  num_iso_packets := t.body.num_iso_packets },
              cb := t.cb }
        ∧ t.set_timeout x
          = { body :=
                { dev_handle := t.body.dev_handle, flags := t.body.flags,
                  endpoint := t.body.endpoint, type := t.body.type,
                  timeout := to_unsigned_int x, status := t.body.status,
                  length := t.body.length, actual_length := t.body.actual_length,
                  callback := t.body.callback, user_data := t.body.user_data,
                  buffer := t.body.buffer, num_iso_packets := t.body.num_iso_packets },
              cb := t.cb }) := by
  have hz : to_int 0 = 0 := by decide
  have hu : to_unsigned_int 0 = 0 := by decide
  refine ⟨⟨rfl, rfl, rfl, hz, hu, rfl⟩, ⟨?_, ?_, rfl⟩, fun b e x => ⟨rfl, rfl⟩⟩
  · simp only [usb.transfer.set_buffer, to_int_of_fits _ hlo hhi]
  · simp only [usb.transfer.set_timeout, to_unsigned_int_of_fits _ hms hms32]

/-- C8 as amended, at the transfer of session 107 and endpoint `0x81` with a
buffer of 64 bytes at address 4096 and a timeout of 1000 ms. -/
theorem async_bulk_transfer_frame_witness :
    (((libusbcpp.device_handle.mk 107 []).async_bulk_transfer Unit 1 ⟨0x81⟩).set_buffer
        4096 4160).body.length = 64
      ∧ (((libusbcpp.device_handle.mk 107 []).async_bulk_transfer Unit 1 ⟨0x81⟩).set_timeout
        1000).body.timeout = 1000
      ∧ ((libusbcpp.device_handle.mk 107 []).async_bulk_transfer Unit 1 ⟨0x81⟩).body.dev_handle
        = 107 := by
  have h := async_bulk_transfer_frame Unit 1 ⟨107, []⟩ ⟨0x81⟩
    ((libusbcpp.device_handle.mk 107 []).async_bulk_transfer Unit 1 ⟨0x81⟩) () 4096 4160 1000
    (by decide) (by decide) (by decide) (by decide)
  refine ⟨?_, ?_, h.1.1⟩
  · rw [h.2.1.1]; decide
  · rw [h.2.1.2.1]

/-! ### Reference counts of devices -/

/-- Overwriting one entry of a list changes a count by the entry removed and
the entry written. -/
theorem countP_set_add {α : Type} (q : α → Bool) (x : α) :
    ∀ (l : List α) (i : Nat) (h : i < l.length),
      (l.set i x).countP q + (if q l[i] then 1 else 0) = l.countP q + (if q x then 1 else 0) := by
  intro l
  induction l with
  | nil => intro i h; simp at h
  | cons a l ih =>
    intro i h
    cases i with
    | zero =>
      simp only [List.set_cons_zero, List.countP_cons, List.getElem_cons_zero]
      omega
    | succ j =>
      have hj : j < l.length := by simpa using h
      have := ih j hj
      simp only [List.set_cons_succ, List.countP_cons, List.getElem_cons_succ]
      omega

/-- The live object with identity `i` is the entry of slot `i`. -/
theorem obj_eq_some_iff (s : libusbcpp.Sys) (i : Nat) (d : libusbcpp.device) :
    s.obj i = some d ↔ ∃ h : i < s.objs.length, s.objs[i] = some d := by
  unfold libusbcpp.Sys.obj
  by_cases h : i < s.objs.length
  · simp [List.getElem?_eq_getElem h, h]
  · simp [List.getElem?_eq_none (Nat.le_of_not_lt h), h]

/-- Overwriting the slot of a live object `d` moves one live reference from
the device of `d` to the device of the value written. -/
theorem live_refs_set (s : libusbcpp.Sys) (i : Nat) (d : libusbcpp.device)
    (x : Option libusbcpp.device) (w : libusbcpp.World) (p : Nat) (hi : s.obj i = some d) :
    (libusbcpp.Sys.mk w (s.objs.set i x)).live_refs p + (if d.pdev = p then 1 else 0)
      = s.live_refs p + (if x = some { pdev := p } then 1 else 0) := by
  obtain ⟨h, hd⟩ := (obj_eq_some_iff s i d).1 hi
  have := countP_set_add (fun o => decide (o = some ({ pdev := p } : libusbcpp.device))) x s.objs i h
  rw [hd] at this
  have hdp : (some d = some ({ pdev := p } : libusbcpp.device)) ↔ d.pdev = p := by
    cases d; simp
  simp only [decide_eq_true_eq, hdp] at this
  exact this


/-- A native unref that returns had a non-null argument, lowered its count by
one and released the device exactly when the count reached zero. -/
theorem unref_eq_some (q : Nat) (w w1 : libusbcpp.World)
    (h : libusbcpp.libusb_unref_device q w = some w1) :
    q ≠ 0 ∧ (∀ p, w1.refcnt p = if p = q then w.refcnt q - 1 else w.refcnt p)
      ∧ w1.destroyed = (if w.refcnt q - 1 = 0 then w.destroyed ++ [q] else w.destroyed) := by
  unfold libusbcpp.libusb_unref_device at h
  by_cases hq : q = 0
  · simp [hq] at h
  · simp only [hq, if_false, Option.some.injEq] at h
    subst h
    exact ⟨hq, fun p => rfl, rfl⟩

/-- A native ref that returns had a non-null argument, raised its count by one
and released nothing. -/
theorem ref_eq_some (q : Nat) (w w1 : libusbcpp.World)
    (h : libusbcpp.libusb_ref_device q w = some w1) :
    q ≠ 0 ∧ (∀ p, w1.refcnt p = if p = q then w.refcnt q + 1 else w.refcnt p)
      ∧ w1.destroyed = w.destroyed := by
  unfold libusbcpp.libusb_ref_device at h
  by_cases hq : q = 0
  · simp [hq] at h
  · simp only [hq, if_false, Option.some.injEq] at h
    subst h
    exact ⟨hq, fun p => rfl, rfl⟩

/-- A live object counts among the live references of its device. -/
theorem live_refs_pos_of_obj (s : libusbcpp.Sys) (i : Nat) (d : libusbcpp.device)
    (hi : s.obj i = some d) : 0 < s.live_refs d.pdev := by
  obtain ⟨h, hd⟩ := (obj_eq_some_iff s i d).1 hi
  unfold libusbcpp.Sys.live_refs
  rw [List.countP_pos_iff]
  exact ⟨s.objs[i], List.getElem_mem h, by simp [hd]⟩

/-- A step that leaves the native world and the live references of every
device unchanged keeps both invariants. -/
theorem same_world_preserves (held : Nat → Nat) (s : libusbcpp.Sys)
    (objs1 : List (Option libusbcpp.device))
    (hc : s.counts_ok held) (hr : s.none_released held)
    (hl : ∀ p, p ≠ 0 → (libusbcpp.Sys.mk s.world objs1).live_refs p = s.live_refs p) :
    (libusbcpp.Sys.mk s.world objs1).counts_ok held
      ∧ (libusbcpp.Sys.mk s.world objs1).none_released held := by
  refine ⟨fun p hp0 => ?_, fun p hp0 hpos => ?_⟩
  · rw [hl p hp0]; exact hc p hp0
  · rw [hl p hp0] at hpos; exact hr p hp0 hpos

/-- A step that unrefs device `q` once and removes one live reference to it
keeps both invariants. -/
theorem unref_step_preserves (held : Nat → Nat) (s : libusbcpp.Sys) (q : Nat)
    (w1 : libusbcpp.World) (objs1 : List (Option libusbcpp.device))
    (hc : s.counts_ok held) (hr : s.none_released held)
    (hu : libusbcpp.libusb_unref_device q s.world = some w1)
    (hl : ∀ p, p ≠ 0 →
      (libusbcpp.Sys.mk w1 objs1).live_refs p + (if q = p then 1 else 0) = s.live_refs p) :
    (libusbcpp.Sys.mk w1 objs1).counts_ok held
      ∧ (libusbcpp.Sys.mk w1 objs1).none_released held := by
  obtain ⟨-, hcnt, hdes⟩ := unref_eq_some _ _ _ hu
  have hcs : ∀ p, p ≠ 0 → w1.refcnt p
      = ((libusbcpp.Sys.mk w1 objs1).live_refs p : Int) + (held p : Int) := by
    intro p hp0
    have h1 := hl p hp0
    have h2 := hc p hp0
    rw [hcnt p]
    by_cases hpq : p = q
    · have hqp : q = p := hpq.symm
      rw [if_pos hqp] at h1
      rw [if_pos hpq, hqp]
      omega
    · have hqp : ¬ q = p := fun e => hpq e.symm
      rw [if_neg hqp] at h1
      rw [if_neg hpq]
      omega
  refine ⟨hcs, fun p hp0 hpos => ?_⟩
  have h1 := hl p hp0
  have hold : p ∉ s.world.destroyed := by
    apply hr p hp0
    split at h1 <;> omega
  show p ∉ w1.destroyed
  rw [hdes]
  split
  · rename_i hz
    have hpq : p ≠ q := by
      intro e
      have := hcs p hp0
      rw [hcnt p, if_pos e] at this
      omega
    simp [hold, hpq]
  · exact hold

/-- A step that refs an already referenced device `q` once and adds one live
reference to it keeps both invariants. -/
theorem ref_step_preserves (held : Nat → Nat) (s : libusbcpp.Sys) (q : Nat)
    (w1 : libusbcpp.World) (objs1 : List (Option libusbcpp.device))
    (hc : s.counts_ok held) (hr : s.none_released held)
    (hu : libusbcpp.libusb_ref_device q s.world = some w1)
    (hq : 0 < s.live_refs q + held q)
    (hl : ∀ p, p ≠ 0 →
      (libusbcpp.Sys.mk w1 objs1).live_refs p = s.live_refs p + (if q = p then 1 else 0)) :
    (libusbcpp.Sys.mk w1 objs1).counts_ok held
      ∧ (libusbcpp.Sys.mk w1 objs1).none_released held := by
  obtain ⟨-, hcnt, hdes⟩ := ref_eq_some _ _ _ hu
  refine ⟨fun p hp0 => ?_, fun p hp0 hpos => ?_⟩
  · have h1 := hl p hp0
    have h2 := hc p hp0
    show w1.refcnt p = _
    rw [hcnt p]
    by_cases hpq : p = q
    · have hqp : q = p := hpq.symm
      rw [if_pos hqp] at h1
      rw [if_pos hpq, hqp]
      omega
    · have hqp : ¬ q = p := fun e => hpq e.symm
      rw [if_neg hqp] at h1
      rw [if_neg hpq]
      omega
  · show p ∉ w1.destroyed
    rw [hdes]
    apply hr p hp0
    have h1 := hl p hp0
    by_cases hqp : q = p
    · rw [← hqp]; exact hq
    · rw [if_neg hqp] at h1
      omega


/-- A new object adds one live reference to its device. -/
theorem live_refs_push (w : libusbcpp.World) (objs : List (Option libusbcpp.device))
    (x : Option libusbcpp.device) (p : Nat) :
    (libusbcpp.Sys.mk w (objs ++ [x])).live_refs p
      = (libusbcpp.Sys.mk w objs).live_refs p + (if x = some { pdev := p } then 1 else 0) := by
  simp [libusbcpp.Sys.live_refs, List.countP_append, List.countP_cons]

/-- Two device objects are equal when their pointers are. -/
theorem some_device_eq_iff (q p : Nat) :
    (some ({ pdev := q } : libusbcpp.device) = some { pdev := p }) ↔ q = p := by
  simp

/-- Construction from the pointer of a device that is referenced (by a live
object or by a live list) keeps the count invariant and releases nothing that
is referenced. -/
theorem construct_preserves (held : Nat → Nat) (s s1 : libusbcpp.Sys) (q : Nat)
    (hc : s.counts_ok held) (hr : s.none_released held) (hq : 0 < s.live_refs q + held q)
    (h : libusbcpp.Sys.construct q s = some s1) :
    s1.counts_ok held ∧ s1.none_released held := by
  unfold libusbcpp.Sys.construct libusbcpp.device.ctor at h
  cases hu : libusbcpp.libusb_ref_device q s.world with
  | none => simp [hu] at h
  | some w1 =>
    simp only [hu, Option.map_some', Option.some.injEq] at h
    subst h
    refine ref_step_preserves held s q w1 _ hc hr hu hq (fun p _ => ?_)
    rw [live_refs_push]
    simp only [some_device_eq_iff]
    rfl

/-- Copy construction keeps the count invariant and releases nothing that is
referenced. -/
theorem copy_construct_preserves (held : Nat → Nat) (s s1 : libusbcpp.Sys) (other : Nat)
    (hc : s.counts_ok held) (hr : s.none_released held)
    (h : libusbcpp.Sys.copy_construct other s = some s1) :
    s1.counts_ok held ∧ s1.none_released held := by
  unfold libusbcpp.Sys.copy_construct libusbcpp.device.copy_ctor at h
  cases ho : s.obj other with
  | none => simp [ho] at h
  | some o =>
    simp only [ho, Option.some_bind] at h
    cases hu : libusbcpp.libusb_ref_device o.pdev s.world with
    | none => simp [hu] at h
    | some w1 =>
      simp only [hu, Option.map_some', Option.some.injEq] at h
      subst h
      have hpos := live_refs_pos_of_obj s other o ho
      refine ref_step_preserves held s o.pdev w1 _ hc hr hu (by omega) (fun p _ => ?_)
      rw [live_refs_push]
      simp only [some_device_eq_iff]
      rfl

/-- Move construction keeps the count invariant and releases nothing that is
referenced. -/
theorem move_construct_preserves (held : Nat → Nat) (s s1 : libusbcpp.Sys) (other : Nat)
    (hc : s.counts_ok held) (hr : s.none_released held)
    (h : libusbcpp.Sys.move_construct other s = some s1) :
    s1.counts_ok held ∧ s1.none_released held := by
  unfold libusbcpp.Sys.move_construct libusbcpp.device.move_ctor at h
  cases ho : s.obj other with
  | none => simp [ho] at h
  | some o =>
    simp only [ho, Option.map_some', Option.some.injEq] at h
    subst h
    refine same_world_preserves held s _ hc hr (fun p hp0 => ?_)
    have h1 := live_refs_set s other o (some { pdev := 0 }) s.world p ho
    rw [live_refs_push]
    have h0 : ¬ 0 = p := fun e => hp0 e.symm
    simp only [some_device_eq_iff, if_neg h0] at h1 ⊢
    omega

/-- Destruction keeps the count invariant and releases nothing that is still
referenced. -/
theorem destroy_preserves (held : Nat → Nat) (s s1 : libusbcpp.Sys) (i : Nat)
    (hc : s.counts_ok held) (hr : s.none_released held)
    (h : libusbcpp.Sys.destroy i s = some s1) :
    s1.counts_ok held ∧ s1.none_released held := by
  unfold libusbcpp.Sys.destroy at h
  cases hd : s.obj i with
  | none => simp [hd] at h
  | some d =>
    simp only [hd, Option.some_bind, libusbcpp.device.dtor] at h
    by_cases hp : d.pdev = 0
    · simp only [hp, ne_eq, not_true_eq_false, if_false, Option.map_some', Option.some.injEq] at h
      subst h
      refine same_world_preserves held s _ hc hr (fun p hp0 => ?_)
      have := live_refs_set s i d none s.world p hd
      have hne : ¬ d.pdev = p := by omega
      simpa [hne] using this
    · simp only [ne_eq, hp, not_false_eq_true, if_true] at h
      cases hu : libusbcpp.libusb_unref_device d.pdev s.world with
      | none => simp [hu] at h
      | some w1 =>
        simp only [hu, Option.map_some', Option.some.injEq] at h
        subst h
        refine unref_step_preserves held s d.pdev w1 _ hc hr hu (fun p _ => ?_)
        have := live_refs_set s i d none w1 p hd
        simpa using this


/-- Reading object `j` after slot `i` of a live object was overwritten. -/
theorem obj_after_set (s : libusbcpp.Sys) (w : libusbcpp.World) (i j : Nat)
    (t : libusbcpp.device) (x : Option libusbcpp.device) (hi : s.obj i = some t) :
    (libusbcpp.Sys.mk w (s.objs.set i x)).obj j = if i = j then x else s.obj j := by
  obtain ⟨h, -⟩ := (obj_eq_some_iff s i t).1 hi
  unfold libusbcpp.Sys.obj
  by_cases hij : i = j
  · subst hij
    simp [h]
  · rw [List.getElem?_set_ne hij, if_neg hij]

/-- Move assignment, self-assignment included, keeps the count invariant and
releases nothing that is still referenced. -/
theorem move_assign_preserves (held : Nat → Nat) (s s1 : libusbcpp.Sys) (self other : Nat)
    (hc : s.counts_ok held) (hr : s.none_released held)
    (h : libusbcpp.Sys.move_assign self other s = some s1) :
    s1.counts_ok held ∧ s1.none_released held := by
  unfold libusbcpp.Sys.move_assign at h
  cases ht : s.obj self with
  | none => simp [ht] at h
  | some t =>
    cases ho : s.obj other with
    | none =>
      simp only [ht, ho, Option.some_bind, Option.map_none'] at h
      cases hw : (if t.pdev ≠ 0 then libusbcpp.libusb_unref_device t.pdev s.world
        else some s.world) <;> simp [hw] at h
    | some o =>
      have hlive : ∀ (w : libusbcpp.World) (p : Nat), p ≠ 0 →
          (libusbcpp.Sys.mk w ((s.objs.set self (some { pdev := o.pdev })).set other
            (some { pdev := 0 }))).live_refs p + (if t.pdev = p then 1 else 0)
          = s.live_refs p := by
        intro w p hp0
        have h1 := live_refs_set s self t (some { pdev := o.pdev }) w p ht
        have hmid : (libusbcpp.Sys.mk w (s.objs.set self (some { pdev := o.pdev }))).obj other
            = some { pdev := o.pdev } := by
          rw [obj_after_set s w self other t _ ht, ho]
          split <;> rfl
        have h2 := live_refs_set (libusbcpp.Sys.mk w (s.objs.set self (some { pdev := o.pdev })))
          other _ (some { pdev := 0 }) w p hmid
        have h0 : ¬ 0 = p := fun e => hp0 e.symm
        simp only [some_device_eq_iff, if_neg h0] at h1 h2
        omega
      simp only [ht, ho, Option.some_bind, Option.map_some', libusbcpp.Sys.set_pdev] at h
      by_cases hp : t.pdev = 0
      · simp only [hp, ne_eq, not_true_eq_false, if_false, Option.some_bind,
          Option.some.injEq] at h
        subst h
        refine same_world_preserves held s _ hc hr (fun p hp0 => ?_)
        have := hlive s.world p hp0
        have hne : ¬ t.pdev = p := by omega
        simpa [hne] using this
      · simp only [ne_eq, hp, not_false_eq_true, if_true] at h
        cases hu : libusbcpp.libusb_unref_device t.pdev s.world with
        | none => simp [hu] at h
        | some w1 =>
          simp only [hu, Option.some_bind, Option.some.injEq] at h
          subst h
          exact unref_step_preserves held s t.pdev w1 _ hc hr hu (fun p hp0 => hlive w1 p hp0)


/-- Counts after an unref of `a` followed by a ref of `b`, when one live
reference moves from `a` to `b`. -/
theorem unref_then_ref_counts (held : Nat → Nat) (c c1 c2 : Nat → Int) (live live2 : Nat → Nat)
    (a b : Nat)
    (hc : ∀ p, p ≠ 0 → c p = (live p : Int) + (held p : Int))
    (h1 : ∀ p, c1 p = if p = a then c a - 1 else c p)
    (h2 : ∀ p, c2 p = if p = b then c1 b + 1 else c1 p)
    (hl : ∀ p, p ≠ 0 →
      live2 p + (if a = p then 1 else 0) = live p + (if b = p then 1 else 0)) :
    ∀ p, p ≠ 0 → c2 p = (live2 p : Int) + (held p : Int) := by
  intro p hp0
  have hcp := hc p hp0
  have hlp := hl p hp0
  have h2p := h2 p
  have h1p := h1 p
  have h1b := h1 b
  by_cases hpa : a = p
  · subst hpa
    by_cases hpb : b = a
    · subst hpb
      simp only [if_true] at hlp h2p h1p
      omega
    · have hab : ¬ a = b := fun e => hpb e.symm
      simp only [if_true, if_neg hpb, if_neg hab] at hlp h2p h1p
      omega
  · have hpa1 : ¬ p = a := fun e => hpa e.symm
    by_cases hpb : b = p
    · subst hpb
      simp only [if_true, if_neg hpa, if_neg hpa1] at hlp h2p h1p
      omega
    · have hpb1 : ¬ p = b := fun e => hpb e.symm
      simp only [if_neg hpa, if_neg hpa1, if_neg hpb, if_neg hpb1] at hlp h2p h1p
      omega

/-- Releases after an unref of `a` followed by a ref of `b`: nothing
referenced is released unless `a = b` held the last reference. -/
theorem unref_then_ref_released (held : Nat → Nat) (c : Nat → Int) (live live2 : Nat → Nat)
    (d d2 : List Nat) (a b : Nat)
    (hc : ∀ p, p ≠ 0 → c p = (live p : Int) + (held p : Int))
    (hr : ∀ p, p ≠ 0 → 0 < live p + held p → p ∉ d)
    (hd : d2 = if c a - 1 = 0 then d ++ [a] else d)
    (hl : ∀ p, p ≠ 0 →
      live2 p + (if a = p then 1 else 0) = live p + (if b = p then 1 else 0))
    (hb : 0 < live b) (hsafe : a = b → c a ≠ 1) :
    ∀ p, p ≠ 0 → 0 < live2 p + held p → p ∉ d2 := by
  intro p hp0 hpos
  have hcp := hc p hp0
  have hlp := hl p hp0
  have hold : 0 < live p + held p → p ∉ d := hr p hp0
  rw [hd]
  by_cases hpa : a = p
  · subst hpa
    by_cases hpb : b = a
    · subst hpb
      have hne := hsafe rfl
      have hz : ¬ c b - 1 = 0 := by omega
      rw [if_neg hz]
      exact hold (by omega)
    · simp only [if_true, if_neg hpb] at hlp
      have hz : ¬ c a - 1 = 0 := by omega
      rw [if_neg hz]
      exact hold (by omega)
  · have hpa1 : ¬ p = a := fun e => hpa e.symm
    have hin : p ∉ d := by
      apply hold
      by_cases hpb : b = p
      · subst hpb; omega
      · simp only [if_neg hpa, if_neg hpb] at hlp
        omega
    split
    · simp [hin, hpa1]
    · exact hin


/-- The steps of a copy assignment that returns. -/
theorem copy_assign_steps (s s1 : libusbcpp.Sys) (self other : Nat)
    (h : libusbcpp.Sys.copy_assign self other s = some s1) :
    ∃ t o w1 w2, s.obj self = some t ∧ s.obj other = some o
      ∧ (if t.pdev ≠ 0 then libusbcpp.libusb_unref_device t.pdev s.world else some s.world)
          = some w1
      ∧ libusbcpp.libusb_ref_device o.pdev w1 = some w2
      ∧ s1 = libusbcpp.Sys.mk w2 (s.objs.set self (some { pdev := o.pdev })) := by
  unfold libusbcpp.Sys.copy_assign at h
  cases ht : s.obj self with
  | none => simp [ht] at h
  | some t =>
    simp only [ht, Option.some_bind] at h
    cases hw : (if t.pdev ≠ 0 then libusbcpp.libusb_unref_device t.pdev s.world
      else some s.world) with
    | none => simp [hw] at h
    | some w1 =>
      simp only [hw, Option.some_bind] at h
      cases ho : s.obj other with
      | none => simp [ho] at h
      | some o =>
        simp only [ho, Option.some_bind] at h
        cases hu : libusbcpp.libusb_ref_device o.pdev w1 with
        | none => simp [hu] at h
        | some w2 =>
          simp only [hu, Option.map_some', Option.some.injEq, libusbcpp.Sys.set_pdev] at h
          exact ⟨t, o, w1, w2, rfl, rfl, hw, hu, h.symm⟩

/-- Copy assignment keeps both invariants unless it assigns a device to an
object that holds the only reference to that same device. -/
theorem copy_assign_preserves (held : Nat → Nat) (s s1 : libusbcpp.Sys) (self other : Nat)
    (hc : s.counts_ok held) (hr : s.none_released held)
    (hsafe : ∀ t o, s.obj self = some t → s.obj other = some o → t.pdev = o.pdev →
      s.world.refcnt t.pdev ≠ 1)
    (h : libusbcpp.Sys.copy_assign self other s = some s1) :
    s1.counts_ok held ∧ s1.none_released held := by
  obtain ⟨t, o, w1, w2, ht, ho, hw1, hw2, rfl⟩ := copy_assign_steps s s1 self other h
  have hlive : ∀ p, (libusbcpp.Sys.mk w2 (s.objs.set self (some { pdev := o.pdev }))).live_refs p
      + (if t.pdev = p then 1 else 0) = s.live_refs p + (if o.pdev = p then 1 else 0) := by
    intro p
    have h1 := live_refs_set s self t (some { pdev := o.pdev }) w2 p ht
    simp only [some_device_eq_iff] at h1
    exact h1
  have hopos := live_refs_pos_of_obj s other o ho
  by_cases hp : t.pdev = 0
  · simp only [hp, ne_eq, not_true_eq_false, if_false, Option.some.injEq] at hw1
    subst hw1
    refine ref_step_preserves held s o.pdev w2 _ hc hr hw2 (by omega) (fun p hp0 => ?_)
    have := hlive p
    have hne : ¬ t.pdev = p := by omega
    rw [if_neg hne] at this
    omega
  · simp only [ne_eq, hp, not_false_eq_true, if_true] at hw1
    obtain ⟨-, hc1, hd1⟩ := unref_eq_some _ _ _ hw1
    obtain ⟨-, hc2, hd2⟩ := ref_eq_some _ _ _ hw2
    refine ⟨?_, ?_⟩
    · exact unref_then_ref_counts held s.world.refcnt w1.refcnt w2.refcnt s.live_refs
        (libusbcpp.Sys.mk w2 (s.objs.set self (some { pdev := o.pdev }))).live_refs
        t.pdev o.pdev hc hc1 hc2 (fun p _ => hlive p)
    · exact unref_then_ref_released held s.world.refcnt s.live_refs
        (libusbcpp.Sys.mk w2 (s.objs.set self (some { pdev := o.pdev }))).live_refs
        s.world.destroyed w2.destroyed t.pdev o.pdev hc hr (by rw [hd2, hd1])
        (fun p _ => hlive p) hopos (hsafe t o ht ho)

/-- After a copy assignment that returns, every count again equals the live
references plus the held ones. -/
theorem copy_assign_counts (held : Nat → Nat) (s s1 : libusbcpp.Sys) (self other : Nat)
    (hc : s.counts_ok held) (h : libusbcpp.Sys.copy_assign self other s = some s1) :
    s1.counts_ok held := by
  obtain ⟨t, o, w1, w2, ht, ho, hw1, hw2, rfl⟩ := copy_assign_steps s s1 self other h
  have hlive : ∀ p, (libusbcpp.Sys.mk w2 (s.objs.set self (some { pdev := o.pdev }))).live_refs p
      + (if t.pdev = p then 1 else 0) = s.live_refs p + (if o.pdev = p then 1 else 0) := by
    intro p
    have h1 := live_refs_set s self t (some { pdev := o.pdev }) w2 p ht
    simp only [some_device_eq_iff] at h1
    exact h1
  obtain ⟨-, hc2, -⟩ := ref_eq_some _ _ _ hw2
  by_cases hp : t.pdev = 0
  · simp only [hp, ne_eq, not_true_eq_false, if_false, Option.some.injEq] at hw1
    subst hw1
    intro p hp0
    have h1 := hlive p
    have h2 := hc p hp0
    have hne : ¬ t.pdev = p := by omega
    rw [if_neg hne] at h1
    show w2.refcnt p = _
    rw [hc2 p]
    by_cases hpo : o.pdev = p
    · subst hpo
      simp only [if_true] at h1 ⊢
      omega
    · have hop : ¬ p = o.pdev := fun e => hpo e.symm
      rw [if_neg hpo] at h1
      rw [if_neg hop]
      omega
  · simp only [ne_eq, hp, not_false_eq_true, if_true] at hw1
    obtain ⟨-, hc1, -⟩ := unref_eq_some _ _ _ hw1
    exact unref_then_ref_counts held s.world.refcnt w1.refcnt w2.refcnt s.live_refs
      (libusbcpp.Sys.mk w2 (s.objs.set self (some { pdev := o.pdev }))).live_refs
      t.pdev o.pdev hc hc1 hc2 (fun p _ => hlive p)


/-- The steps of a destruction that returns. -/
theorem destroy_steps (s s1 : libusbcpp.Sys) (i : Nat)
    (h : libusbcpp.Sys.destroy i s = some s1) :
    ∃ d w1, s.obj i = some d ∧ libusbcpp.device.dtor d s.world = some w1
      ∧ s1 = libusbcpp.Sys.mk w1 (s.objs.set i none) := by
  unfold libusbcpp.Sys.destroy at h
  cases hd : s.obj i with
  | none => simp [hd] at h
  | some d =>
    simp only [hd, Option.some_bind] at h
    cases hw : libusbcpp.device.dtor d s.world with
    | none => simp [hw] at h
    | some w1 =>
      simp only [hw, Option.map_some', Option.some.injEq] at h
      exact ⟨d, w1, rfl, hw, h.symm⟩

/-- Of two live copies on the same native device, destroying one leaves the
other live, the count of the device at least 1 and the device not released. -/
theorem destroy_copy_keeps_other (held : Nat → Nat) (s : libusbcpp.Sys) (i j : Nat)
    (d : libusbcpp.device)
    (hc : s.counts_ok held) (hr : s.none_released held)
    (hi : s.obj i = some d) (hj : s.obj j = some d) (hij : i ≠ j) (hp : d.pdev ≠ 0) :
    ∃ s1, libusbcpp.Sys.destroy i s = some s1 ∧ s1.obj j = some d
      ∧ 1 ≤ s1.world.refcnt d.pdev ∧ d.pdev ∉ s1.world.destroyed := by
  have hsome : ∃ s1, libusbcpp.Sys.destroy i s = some s1 := by
    simp [libusbcpp.Sys.destroy, hi, libusbcpp.device.dtor, hp, libusbcpp.libusb_unref_device]
  obtain ⟨s1, h⟩ := hsome
  refine ⟨s1, h, ?_⟩
  obtain ⟨hc1, hr1⟩ := destroy_preserves held s s1 i hc hr h
  obtain ⟨d1, w1, hd1, -, rfl⟩ := destroy_steps s s1 i h
  have hobj : (libusbcpp.Sys.mk w1 (s.objs.set i none)).obj j = some d := by
    rw [obj_after_set s w1 i j d1 none hd1, if_neg hij, hj]
  have hpos := live_refs_pos_of_obj _ j d hobj
  have hcount := hc1 d.pdev hp
  refine ⟨hobj, ?_, hr1 d.pdev hp (by omega)⟩
  omega

/-- The copy assignment of a live object to itself, when that object holds the
only reference to its device, returns with the object on the same device and
the count at 1, after the native library released the device. -/
theorem copy_self_assign_releases (s : libusbcpp.Sys) (i : Nat) (d : libusbcpp.device)
    (hi : s.obj i = some d) (hp : d.pdev ≠ 0) (hone : s.world.refcnt d.pdev = 1) :
    ∃ s1, libusbcpp.Sys.copy_assign i i s = some s1 ∧ s1.obj i = some d
      ∧ s1.world.refcnt d.pdev = 1 ∧ d.pdev ∈ s1.world.destroyed := by
  obtain ⟨h, -⟩ := (obj_eq_some_iff s i d).1 hi
  refine ⟨_, by simp [libusbcpp.Sys.copy_assign, hi, hp, libusbcpp.libusb_unref_device,
    libusbcpp.libusb_ref_device]; rfl, ?_, ?_, ?_⟩
  · simp [libusbcpp.Sys.set_pdev, libusbcpp.Sys.obj, h]
  · simp [libusbcpp.World.record, libusbcpp.World.incr_ref, libusbcpp.World.decr_ref, hone]
  · simp [libusbcpp.World.record, libusbcpp.World.incr_ref, libusbcpp.World.decr_ref, hone]

/-- C5: the lone device object 0 refers to native device 7, whose count is
1 with one live object, as the invariant asks. The copy assignment of the
object to itself leaves the object live on device 7 with count 1, but on
the way the count reached zero and the native library released device 7.
The copy assignment from a moved-from object passes a null pointer to the
native ref call and faults. -/
theorem copy_self_assignment_releases_device :
    sample.lone_device.live_refs 7 = 1
      ∧ sample.lone_device.world.refcnt 7 = 1
      ∧ (libusbcpp.Sys.copy_assign 0 0 sample.lone_device).map
          (fun s => (s.objs, s.world.refcnt 7, s.world.destroyed, s.world.log))
        = some ([some { pdev := 7 }], 1, [7], [.unref_device 7, .ref_device 7])
      ∧ (libusbcpp.Sys.copy_assign 0 1 sample.device_and_moved_from).isSome = false := by
  decide

/-! ### `open_if` -/

/-- The first element of a filtered list is the first result found. -/
theorem head?_filterMap_eq_findSome? {α β : Type} (f : α → Option β) (l : List α) :
    (l.filterMap f).head? = l.findSome? f := by
  induction l with
  | nil => rfl
  | cons a l ih =>
    cases hfa : f a with
    | none => simp [List.filterMap_cons, List.findSome?_cons, hfa, ih]
    | some b => simp [List.filterMap_cons, List.findSome?_cons, hfa]

/-- Dereferencing an iterator at an entry that holds a non-null device
constructs the device and takes one reference. -/
theorem device_list_iterator_deref_entry (N : libusbcpp.Native) (b i p : Nat)
    (w : libusbcpp.World) (hb : b ≠ 0) (hi : (N.device_array b)[i]? = some p) (hp : p ≠ 0) :
    libusbcpp.device_list_iterator_deref N ⟨b, i⟩ w
      = some ({ pdev := p }, (w.incr_ref p).record (.ref_device p)) := by
  simp [libusbcpp.device_list_iterator_deref, hb, hi, libusbcpp.device.ctor,
    libusbcpp.libusb_ref_device, hp]

/-- Destroying a device with a non-null pointer drops one reference. -/
theorem device_dtor_of_ne_null (p : Nat) (w : libusbcpp.World) (hp : p ≠ 0) :
    libusbcpp.device.dtor { pdev := p } w = some ((w.decr_ref p).record (.unref_device p)) := by
  simp [libusbcpp.device.dtor, libusbcpp.libusb_unref_device, hp]

/-- One round of the loop of `open_if` appends to `out` exactly what the
specification gives for the device. -/
theorem open_if_body_out (N : libusbcpp.Native) (pred : libusbcpp.libusb_device_descriptor → Bool)
    (p : Nat) (out : List libusbcpp.device_handle) (w : libusbcpp.World) :
    (libusbcpp.open_if_body N pred { pdev := p } out w).1
      = out ++ (libusbcpp.open_if_expected_one N pred p).toList := by
  unfold libusbcpp.open_if_body libusbcpp.open_if_expected_one
    libusbcpp.device.get_device_descriptor libusbcpp.device.open
  by_cases hd : (N.libusb_get_device_descriptor p).1 = 0
  · by_cases hpred : pred (N.libusb_get_device_descriptor p).2 = true
    · by_cases ho : (N.libusb_open p).1 = 0
      · simp [hd, hpred, ho, sum_type.visit, libusbcpp.device_handle.move_ctor,
          libusbcpp.device_handle.ctor]
      · simp [hd, hpred, ho, sum_type.visit]
    · simp [hd, hpred, sum_type.visit]
  · simp [hd, sum_type.visit]

/-- The loop of `open_if` over the entries `i ..` of an array of non-null
devices, with fuel covering the remaining entries, ends with `out` extended
by what the specification gives for those entries, in order. -/
theorem open_if_loop_spec (N : libusbcpp.Native)
    (pred : libusbcpp.libusb_device_descriptor → Bool) (b : Nat) (devs : List Nat)
    (hb : b ≠ 0) (harr : N.device_array b = devs) (hnz : ∀ p ∈ devs, p ≠ 0) :
    ∀ (fuel i : Nat) (out : List libusbcpp.device_handle) (w : libusbcpp.World),
      i ≤ devs.length → devs.length - i ≤ fuel →
      ∃ w1, libusbcpp.open_if_loop N pred fuel ⟨b, i⟩ ⟨b, devs.length⟩ out w
        = some (out ++ (devs.drop i).filterMap (libusbcpp.open_if_expected_one N pred), w1) := by
  intro fuel
  induction fuel with
  | zero =>
    intro i out w hi hf
    have hin : i = devs.length := by omega
    subst hin
    exact ⟨w, by simp [libusbcpp.open_if_loop, usb.device_list_iterator.ne]⟩
  | succ fuel ih =>
    intro i out w hi hf
    by_cases hin : i = devs.length
    · subst hin
      exact ⟨w, by simp [libusbcpp.open_if_loop, usb.device_list_iterator.ne]⟩
    · have hlt : i < devs.length := by omega
      have hget : (N.device_array b)[i]? = some devs[i] := by
        rw [harr]; exact List.getElem?_eq_getElem hlt
      have hp : devs[i] ≠ 0 := hnz _ (List.getElem_mem hlt)
      obtain ⟨w1, hw1⟩ := ih (i + 1)
        (libusbcpp.open_if_body N pred { pdev := devs[i] } out
          ((w.incr_ref devs[i]).record (.ref_device devs[i]))).1
        ((((libusbcpp.open_if_body N pred { pdev := devs[i] } out
          ((w.incr_ref devs[i]).record (.ref_device devs[i]))).2).decr_ref devs[i]).record
            (.unref_device devs[i]))
        (by omega) (by omega)
      refine ⟨w1, ?_⟩
      have hne : usb.device_list_iterator.ne ⟨b, i⟩ ⟨b, devs.length⟩ = true := by
        simp [usb.device_list_iterator.ne, hin]
      rw [libusbcpp.open_if_loop]
      simp only [hne, if_true, device_list_iterator_deref_entry N b i devs[i] w hb hget hp,
        device_dtor_of_ne_null _ _ hp, usb.device_list_iterator.incr]
      rw [hw1, open_if_body_out, List.drop_eq_getElem_cons hlt, List.filterMap_cons]
      cases libusbcpp.open_if_expected_one N pred devs[i] <;> simp

/-- C10: when the native enumeration of the context places the device
sequence `devs` (non-null devices, array at a non-null address) and returns
its length, `open_if(ctx, pred)` with fuel covering the sequence returns, in
enumeration order, exactly one handle for each device whose descriptor query
succeeds, whose descriptor satisfies `pred` and whose open succeeds, on the
session the native open produced, and nothing for any other device; its
first element, when present, is the handle of the first such device. -/
theorem open_if_returns_opened_matches (N : libusbcpp.Native) (c : libusbcpp.context)
    (pred : libusbcpp.libusb_device_descriptor → Bool) (w : libusbcpp.World) (fuel : Nat)
    (devs : List Nat)
    (hret : (N.libusb_get_device_list c.ctx).1 = (devs.length : Int))
    (harr : N.device_array (N.libusb_get_device_list c.ctx).2 = devs)
    (hbase : (N.libusb_get_device_list c.ctx).2 ≠ 0)
    (hnz : ∀ p ∈ devs, p ≠ 0)
    (hsz : devs.length < 2 ^ 64)
    (hfuel : devs.length ≤ fuel) :
    (∃ w1, libusbcpp.open_if N fuel c pred w = some (libusbcpp.open_if_expected N pred devs, w1))
      ∧ (libusbcpp.open_if_expected N pred devs).head?
          = devs.findSome? (libusbcpp.open_if_expected_one N pred) := by
  refine ⟨?_, head?_filterMap_eq_findSome? _ _⟩
  have hlen : to_size_t (N.libusb_get_device_list c.ctx).1 = devs.length := by
    rw [hret]
    unfold to_size_t
    omega
  obtain ⟨w1, hw1⟩ := open_if_loop_spec N pred (N.libusb_get_device_list c.ctx).2 devs hbase harr
    hnz fuel 0 [] (libusbcpp.context.get_device_list N c w).2 (by omega) (by omega)
  refine ⟨libusbcpp.device_list.dtor N (libusbcpp.context.get_device_list N c w).1 w1, ?_⟩
  have hbegin : (libusbcpp.context.get_device_list N c w).1.begin_
      = ⟨(N.libusb_get_device_list c.ctx).2, 0⟩ := rfl
  have hend : (libusbcpp.context.get_device_list N c w).1.end_
      = ⟨(N.libusb_get_device_list c.ctx).2, devs.length⟩ := by
    simp [libusbcpp.context.get_device_list, libusbcpp.libusb_get_device_list,
      libusbcpp.device_list.end_, libusbcpp.device_list.ctor, hlen]
  unfold libusbcpp.open_if
  simp only [hbegin, hend, hw1]
  simp [libusbcpp.open_if_expected]

/-- C10 at the sample native library and the filter `(0x1234, 0x5678)`: of
the devices 7 to 11, device 8 cannot be opened, device 9 has no descriptor
and device 10 does not match, so the result is the sessions 107 and 111. -/
theorem open_if_returns_opened_matches_witness :
    ∃ w1, libusbcpp.open_if sample.native 8 ⟨1⟩ sample.filter sample.fresh_world
      = some ([⟨107, []⟩, ⟨111, []⟩], w1) := by
  have h := open_if_returns_opened_matches sample.native ⟨1⟩ sample.filter sample.fresh_world 8
    [7, 8, 9, 10, 11] (by decide) (by decide) (by decide) (by decide) (by decide) (by decide)
  have hexp : libusbcpp.open_if_expected sample.native sample.filter [7, 8, 9, 10, 11]
      = [⟨107, []⟩, ⟨111, []⟩] := by decide
  rw [hexp] at h
  exact h.1

/-! ### Device lists -/

/-- The length of the list `get_device_list` builds is the native return
value converted to `std::size_t`, and its array is the pointer the native
call left in `devs`. -/
theorem get_device_list_fields (N : libusbcpp.Native) (c : libusbcpp.context)
    (w : libusbcpp.World) :
    (c.get_device_list N w).1.length = to_size_t (N.libusb_get_device_list c.ctx).1
      ∧ (c.get_device_list N w).1.devs = (N.libusb_get_device_list c.ctx).2 :=
  ⟨rfl, rfl⟩

/-- When the native enumeration succeeds and returns the number of device
pointers it placed, the list has that length. -/
theorem get_device_list_length_of_success (N : libusbcpp.Native) (c : libusbcpp.context)
    (w : libusbcpp.World)
    (hret : (N.libusb_get_device_list c.ctx).1
      = ((N.device_array (N.libusb_get_device_list c.ctx).2).length : Int))
    (hsz : (N.device_array (N.libusb_get_device_list c.ctx).2).length < 2 ^ 64) :
    (c.get_device_list N w).1.length
      = (N.device_array (c.get_device_list N w).1.devs).length := by
  show to_size_t (N.libusb_get_device_list c.ctx).1
    = (N.device_array (N.libusb_get_device_list c.ctx).2).length
  rw [hret]
  unfold to_size_t
  omega

/-- When the native enumeration fails with a negative status that fits
`ssize_t`, the list has the positive length `2^64 + status`. -/
theorem get_device_list_length_of_error (N : libusbcpp.Native) (c : libusbcpp.context)
    (w : libusbcpp.World)
    (hneg : (N.libusb_get_device_list c.ctx).1 < 0)
    (hlo : -2 ^ 63 ≤ (N.libusb_get_device_list c.ctx).1) :
    ((c.get_device_list N w).1.length : Int) = 2 ^ 64 + (N.libusb_get_device_list c.ctx).1
      ∧ 0 < (c.get_device_list N w).1.length := by
  have h : ((c.get_device_list N w).1.length : Int)
      = 2 ^ 64 + (N.libusb_get_device_list c.ctx).1 := by
    show ((to_size_t (N.libusb_get_device_list c.ctx).1 : Nat) : Int) = _
    unfold to_size_t
    omega
  exact ⟨h, by omega⟩

/-- C11: when the native enumeration fails with status -11 and places no
device pointer, the list built by `get_device_list()` has length
18446744073709551605, not zero; its begin differs from its end, the first
dereference reads an entry the native call never placed, and `open_if`
faults whatever the fuel. -/
theorem get_device_list_length_on_error :
    (sample.failing_native.libusb_get_device_list 1).1 = -11
      ∧ (sample.failing_native.device_array
          ((libusbcpp.context.mk 1).get_device_list sample.failing_native
            sample.fresh_world).1.devs).length = 0
      ∧ ((libusbcpp.context.mk 1).get_device_list sample.failing_native
          sample.fresh_world).1.length = 18446744073709551605
      ∧ usb.device_list_iterator.ne
          ((libusbcpp.context.mk 1).get_device_list sample.failing_native
            sample.fresh_world).1.begin_
          ((libusbcpp.context.mk 1).get_device_list sample.failing_native
            sample.fresh_world).1.end_ = true
      ∧ (libusbcpp.device_list_iterator_deref sample.failing_native
          ((libusbcpp.context.mk 1).get_device_list sample.failing_native
            sample.fresh_world).1.begin_
          ((libusbcpp.context.mk 1).get_device_list sample.failing_native
            sample.fresh_world).2).isSome = false
      ∧ ∀ fuel, (libusbcpp.open_if sample.failing_native fuel ⟨1⟩ sample.filter
          sample.fresh_world).isSome = false := by
  refine ⟨by decide, by decide, by decide, by decide, by decide, ?_⟩
  intro fuel
  have hne : usb.device_list_iterator.ne
      ((libusbcpp.context.mk 1).get_device_list sample.failing_native
        sample.fresh_world).1.begin_
      ((libusbcpp.context.mk 1).get_device_list sample.failing_native
        sample.fresh_world).1.end_ = true := by decide
  have hderef : libusbcpp.device_list_iterator_deref sample.failing_native
      ((libusbcpp.context.mk 1).get_device_list sample.failing_native
        sample.fresh_world).1.begin_
      ((libusbcpp.context.mk 1).get_device_list sample.failing_native
        sample.fresh_world).2 = none := by
    simp [libusbcpp.device_list_iterator_deref, libusbcpp.device_list.begin_,
      libusbcpp.context.get_device_list, libusbcpp.libusb_get_device_list,
      libusbcpp.device_list.ctor, sample.failing_native]
  unfold libusbcpp.open_if
  cases fuel with
  | zero => simp only [libusbcpp.open_if_loop, hne, if_true]; rfl
  | succ k => simp only [libusbcpp.open_if_loop, hne, if_true, hderef]; rfl

/-- C12: list 0 owns the array at address 50 and list 1 the array at address
60. The move assignment of list 1 to list 0 leaves list 1 with a null array
and length 0 and gives its array to list 0, but makes no native call: the
array at address 50 is not freed. After both lists are destroyed the log
holds the one free of the array at address 60, and the array at address 50
was freed zero times. The move assignment of list 0 to itself leaves it
with a null array, again without a free. -/
theorem move_assign_leaks_destination_array :
    (libusbcpp.ListSys.move_assign 0 1 sample.two_lists).map (fun s => (s.lists, s.world.log))
        = some ([some { devs := 60, length := 2 }, some { devs := 0, length := 0 }], [])
      ∧ (libusbcpp.move_assign_then_destroy_both sample.two_arrays_native 0 1
          sample.two_lists).map (fun s => (s.lists, s.world.log))
        = some ([none, none], [.free_device_list 60 1])
      ∧ (libusbcpp.move_assign_then_destroy_both sample.two_arrays_native 0 1
          sample.two_lists).map (fun s => libusbcpp.frees_of 50 s.world.log) = some 0
      ∧ (libusbcpp.move_assign_then_destroy_both sample.two_arrays_native 0 1
          sample.two_lists).map (fun s => libusbcpp.frees_of 60 s.world.log) = some 1
      ∧ (libusbcpp.ListSys.move_assign 0 0 sample.two_lists).map
          (fun s => (s.lists, s.world.log))
        = some ([some { devs := 0, length := 0 }, some { devs := 60, length := 2 }], []) := by
  decide

/-- The live list with identity `i` is the entry of slot `i`. -/
theorem list_obj_eq_some_iff (s : libusbcpp.ListSys) (i : Nat) (l : libusbcpp.device_list) :
    s.obj i = some l ↔ s.lists[i]? = some (some l) := by
  unfold libusbcpp.ListSys.obj
  cases h : s.lists[i]? with
  | none => simp
  | some x => cases x <;> simp

/-- A live list has a slot in the store. -/
theorem list_lt_of_obj (s : libusbcpp.ListSys) (i : Nat) (l : libusbcpp.device_list)
    (h : s.obj i = some l) : i < s.lists.length := by
  rw [list_obj_eq_some_iff] at h
  by_contra hge
  rw [List.getElem?_eq_none (Nat.le_of_not_lt hge)] at h
  cases h

/-- Writing `devs` of a live list replaces its slot and keeps its length
member. -/
theorem list_set_devs_eq (s : libusbcpp.ListSys) (i : Nat) (l : libusbcpp.device_list)
    (v : Nat) (h : s.obj i = some l) :
    s.set_devs i v
      = { world := s.world, lists := s.lists.set i (some { devs := v, length := l.length }) } := by
  simp only [libusbcpp.ListSys.set_devs, h]

/-- Writing `length` of a live list replaces its slot and keeps its array
member. -/
theorem list_set_length_eq (s : libusbcpp.ListSys) (i : Nat) (l : libusbcpp.device_list)
    (v : Nat) (h : s.obj i = some l) :
    s.set_length i v
      = { world := s.world, lists := s.lists.set i (some { devs := l.devs, length := v }) } := by
  simp only [libusbcpp.ListSys.set_length, h]

/-- Reading list `j` after slot `i` was overwritten. -/
theorem list_obj_set (w : libusbcpp.World) (L : List (Option libusbcpp.device_list))
    (i j : Nat) (x : Option libusbcpp.device_list) (hi : i < L.length) :
    (libusbcpp.ListSys.mk w (L.set i x)).obj j
      = if i = j then x else (libusbcpp.ListSys.mk w L).obj j := by
  unfold libusbcpp.ListSys.obj
  by_cases hij : i = j
  · subst hij
    simp [hi]
  · simp [List.getElem?_set_ne hij, hij]

/-- The two swaps between distinct live lists exchange their values and make
no native call. -/
theorem swap_members_spec (s : libusbcpp.ListSys) (self other : Nat)
    (t o : libusbcpp.device_list) (ht : s.obj self = some t) (ho : s.obj other = some o)
    (hne : self ≠ other) :
    (libusbcpp.ListSys.swap_devs self other s).bind (libusbcpp.ListSys.swap_length self other)
      = some { world := s.world, lists := (s.lists.set self (some o)).set other (some t) } := by
  obtain ⟨w, L⟩ := s
  have hlt : self < L.length := list_lt_of_obj _ self t ht
  have hlo : other < L.length := list_lt_of_obj _ other o ho
  have hne1 : ¬ other = self := fun e => hne e.symm
  have e3 := list_set_devs_eq _ self _ o.devs ht
  have o3 : (libusbcpp.ListSys.mk w
      (L.set self (some { devs := o.devs, length := t.length }))).obj other = some o := by
    rw [list_obj_set _ _ _ _ _ hlt, if_neg hne]; exact ho
  have e4 := list_set_devs_eq _ other _ t.devs o3
  have hlo4 : other < (L.set self (some ({ devs := o.devs, length := t.length } :
      libusbcpp.device_list))).length := by simpa using hlo
  have hlt4 : self < ((L.set self (some ({ devs := o.devs, length := t.length } :
      libusbcpp.device_list))).set other (some { devs := t.devs, length := o.length })).length := by
    simpa using hlt
  have o4 : (libusbcpp.ListSys.mk w
      ((L.set self (some { devs := o.devs, length := t.length })).set other
        (some { devs := t.devs, length := o.length }))).obj self
      = some { devs := o.devs, length := t.length } := by
    rw [list_obj_set _ _ _ _ _ hlo4, if_neg hne1, list_obj_set _ _ _ _ _ hlt, if_pos rfl]
  have o4' : (libusbcpp.ListSys.mk w
      ((L.set self (some { devs := o.devs, length := t.length })).set other
        (some { devs := t.devs, length := o.length }))).obj other
      = some { devs := t.devs, length := o.length } := by
    rw [list_obj_set _ _ _ _ _ hlo4, if_pos rfl]
  have e5 := list_set_length_eq _ self _ o.length o4
  have o5 : (libusbcpp.ListSys.mk w
      (((L.set self (some { devs := o.devs, length := t.length })).set other
        (some { devs := t.devs, length := o.length })).set self
          (some { devs := o.devs, length := o.length }))).obj other
      = some { devs := t.devs, length := o.length } := by
    rw [list_obj_set _ _ _ _ _ hlt4, if_neg hne, o4']
  have e6 := list_set_length_eq _ other _ t.length o5
  simp only [libusbcpp.ListSys.swap_devs, libusbcpp.ListSys.swap_length, ht, ho,
    Option.some_bind, Option.map_some', e3, e4, o4, o4', e5, e6]
  congr 2
  rw [List.set_comm _ _ _ hne1, List.set_set, List.set_set]

/-- The move assignment between distinct live lists gives the destination the
array and length of the source, leaves the source with a null array and length
0, and leaves the native world as it was: the array the destination held is
not freed. -/
theorem move_assign_spec (s : libusbcpp.ListSys) (self other : Nat)
    (t o : libusbcpp.device_list) (ht : s.obj self = some t) (ho : s.obj other = some o)
    (hne : self ≠ other) :
    libusbcpp.ListSys.move_assign self other s
      = some { world := s.world,
               lists := (s.lists.set self (some o)).set other (some { devs := 0, length := 0 }) } := by
  obtain ⟨w, L⟩ := s
  have hlt : self < L.length := list_lt_of_obj _ self t ht
  have e1 := list_set_length_eq _ self t 0 ht
  have o1 : (libusbcpp.ListSys.mk w (L.set self (some { devs := t.devs, length := 0 }))).obj self
      = some { devs := t.devs, length := 0 } := by
    rw [list_obj_set _ _ _ _ _ hlt, if_pos rfl]
  have e2 := list_set_devs_eq _ self _ 0 o1
  simp only [List.set_set] at e2
  have o2 : (libusbcpp.ListSys.mk w (L.set self (some { devs := 0, length := 0 }))).obj self
      = some { devs := 0, length := 0 } := by
    rw [list_obj_set _ _ _ _ _ hlt, if_pos rfl]
  have o2' : (libusbcpp.ListSys.mk w (L.set self (some { devs := 0, length := 0 }))).obj other
      = some o := by
    rw [list_obj_set _ _ _ _ _ hlt, if_neg hne]; exact ho
  have hs := swap_members_spec _ self other _ o o2 o2' hne
  simp only [List.set_set] at hs
  simp only [libusbcpp.ListSys.move_assign, ht, Option.some_bind, e1, e2, hs]

/-- The move assignment of a live list to itself leaves it with a null array
and length 0, and leaves the native world as it was. -/
theorem move_assign_self_spec (s : libusbcpp.ListSys) (self : Nat) (t : libusbcpp.device_list)
    (ht : s.obj self = some t) :
    libusbcpp.ListSys.move_assign self self s
      = some { world := s.world,
               lists := s.lists.set self (some { devs := 0, length := 0 }) } := by
  obtain ⟨w, L⟩ := s
  have hlt : self < L.length := list_lt_of_obj _ self t ht
  have e1 := list_set_length_eq _ self t 0 ht
  have o1 : (libusbcpp.ListSys.mk w (L.set self (some { devs := t.devs, length := 0 }))).obj self
      = some { devs := t.devs, length := 0 } := by
    rw [list_obj_set _ _ _ _ _ hlt, if_pos rfl]
  have e2 := list_set_devs_eq _ self _ 0 o1
  simp only [List.set_set] at e2
  have o2 : (libusbcpp.ListSys.mk w (L.set self (some { devs := 0, length := 0 }))).obj self
      = some { devs := 0, length := 0 } := by
    rw [list_obj_set _ _ _ _ _ hlt, if_pos rfl]
  have e3 := list_set_devs_eq _ self _ 0 o2
  simp only [List.set_set] at e3
  have e5 := list_set_length_eq _ self _ 0 o2
  simp only [List.set_set] at e5
  simp only [libusbcpp.ListSys.move_assign, libusbcpp.ListSys.swap_devs,
    libusbcpp.ListSys.swap_length, ht, Option.some_bind, e1, e2, o2, Option.map_some', e3, e5]

/-- The move constructor gives the new list the array and length of the
source, leaves the source with a null array and length 0, and makes no native
call. -/
theorem move_construct_spec (s : libusbcpp.ListSys) (other : Nat) (o : libusbcpp.device_list)
    (ho : s.obj other = some o) :
    libusbcpp.ListSys.move_construct other s
      = some { world := s.world,
               lists := s.lists.set other (some { devs := 0, length := 0 }) ++ [some o] } := by
  have hlo := list_lt_of_obj s other o ho
  have hs := swap_members_spec
    { world := s.world, lists := s.lists ++ [some { devs := 0, length := 0 }] }
    s.lists.length other { devs := 0, length := 0 } o
    (by simp [libusbcpp.ListSys.obj])
    (by
      unfold libusbcpp.ListSys.obj at ho ⊢
      rw [List.getElem?_append_left hlo]
      exact ho)
    (by omega)
  unfold libusbcpp.ListSys.move_construct
  rw [hs]
  congr 2
  simp [List.set_append, hlo]

/-- Dropping references does not write the call log. -/
theorem foldl_decr_ref_log (l : List Nat) (w : libusbcpp.World) :
    (l.foldl libusbcpp.World.decr_ref w).log = w.log := by
  induction l generalizing w with
  | nil => rfl
  | cons p l ih => rw [List.foldl_cons, ih]; rfl

/-- The destructor of a live list frees the array it holds, once, if and only
if the array is non-null. -/
theorem list_destroy_spec (N : libusbcpp.Native) (s : libusbcpp.ListSys) (i : Nat)
    (l : libusbcpp.device_list) (hl : s.obj i = some l) :
    ∃ s1, libusbcpp.ListSys.destroy N i s = some s1
      ∧ s1.obj i = none
      ∧ s1.world.log
          = s.world.log ++ (if l.devs ≠ 0 then [.free_device_list l.devs 1] else []) := by
  have hlt := list_lt_of_obj s i l hl
  refine ⟨{ world := l.dtor N s.world, lists := s.lists.set i none },
    by simp only [libusbcpp.ListSys.destroy, hl, Option.map_some'], ?_, ?_⟩
  · rw [list_obj_set _ _ _ _ _ hlt, if_pos rfl]
  · by_cases h0 : l.devs = 0
    · simp [libusbcpp.device_list.dtor, h0]
    · simp [libusbcpp.device_list.dtor, h0, libusbcpp.libusb_free_device_list,
        libusbcpp.World.record, foldl_decr_ref_log]

end osf
